import Mathlib

/-!
Shallow embedding of the CGPA record-keeping service (models/Department.js
grade schema, routes/grades.js, routes/subjects.js bulk path,
routes/users.js bulk path) and verification of its specification claims.

Identifiers (Mongo ObjectIds) are modelled as `Nat`, JS numbers as `ℚ`,
dates as `Nat` timestamps.  `Option` marks fields that may be absent in a
request body (`undefined` in JS).
-/

namespace Cgpa

/-- Roles of `User.role` in the user schema. -/
inductive Role where
  | admin | hod | teacher | student
  deriving DecidableEq, Repr

/-- `Grade.examType` enum: `['Regular', 'Supplementary', 'Improvement']`. -/
inductive ExamType where
  | Regular | Supplementary | Improvement
  deriving DecidableEq, Repr

/-- The `marks` subdocument of the grade schema: `theory`, `practical`,
`internal` each optional numbers, `total` a number (derived). -/
structure Marks where
  theory    : Option ℚ
  practical : Option ℚ
  internal  : Option ℚ
  total     : ℚ
  deriving DecidableEq, Repr

/-- A `Grade` document (models/Department.js grade schema). -/
structure Grade where
  id           : Nat
  student      : Nat
  subject      : Nat
  teacher      : Nat
  marks        : Marks
  grade        : String
  gradePoints  : ℚ
  semester     : Nat
  academicYear : String
  examType     : ExamType
  isPublished  : Bool
  publishedAt  : Option Nat
  remarks      : Option String
  deriving DecidableEq, Repr

/-- A `Subject` document (models/Subject.js), the fields the grade routes
read: `department`, `teacher`, `credits`, `semester`. -/
structure Subject where
  id         : Nat
  code       : String
  department : Nat
  teacher    : Option Nat
  credits    : ℚ
  semester   : Nat
  deriving DecidableEq, Repr

/-- A `User` document, the fields the grade routes read. -/
structure User where
  id         : Nat
  userId     : String
  email      : String
  role       : Role
  department : Nat
  deriving DecidableEq, Repr

/-- The authenticated actor `req.user` (id, role, populated department id). -/
structure Actor where
  id         : Nat
  role       : Role
  department : Nat
  deriving DecidableEq, Repr

/-- `gradeSchema.methods.calculateGrade`: the fixed scale from
`marks.total` to the letter grade and grade points. -/
def calculateGrade (total : ℚ) : String × ℚ :=
  if total ≥ 90 then ("O", 10)
  else if total ≥ 80 then ("A+", 9)
  else if total ≥ 70 then ("A", 8)
  else if total ≥ 60 then ("B+", 7)
  else if total ≥ 55 then ("B", 6)
  else if total ≥ 50 then ("C", 5)
  else if total ≥ 40 then ("P", 4)
  else ("F", 0)

/-- `gradeSchema.pre('save')`: recompute `marks.total` as
`(theory || 0) + (practical || 0) + (internal || 0)` and then the grade
letter / grade points via `calculateGrade`, before persistence. -/
def preSave (g : Grade) : Grade :=
  let total := g.marks.theory.getD 0 + g.marks.practical.getD 0 + g.marks.internal.getD 0
  let gp := calculateGrade total
  { g with
      marks := { g.marks with total := total }
      grade := gp.1
      gradePoints := gp.2 }

/-- Outcomes the route handlers can produce instead of a payload. -/
inductive ApiError where
  | badRequest (msg : String)
  | forbidden (msg : String)
  | notFound (msg : String)
  | serverError
  deriving DecidableEq, Repr

/-- `authorize(...roles)` middleware: the actor's role must be listed. -/
def authorizeRoles (roles : List Role) (a : Actor) : Bool :=
  roles.contains a.role

/-- The `marks` object of a request body: each component optional. -/
structure MarksInput where
  theory    : Option ℚ
  practical : Option ℚ
  internal  : Option ℚ
  deriving DecidableEq, Repr

/-- Assigning a request's `marks` object onto the subdocument
(`existingGrade.marks = marks`): `total` is left unset until the pre-save
hook recomputes it; the placeholder 0 is always overwritten by `preSave`
before persistence. -/
def Marks.ofInput (m : MarksInput) : Marks :=
  { theory := m.theory, practical := m.practical, internal := m.internal, total := 0 }

/-- The per-component marks range validation shared by POST /api/grades and
PUT /api/grades/:id: each supplied component must lie in [0,100]. -/
def marksError (m : MarksInput) : Option String :=
  if m.theory.any (fun t => decide (t < 0 ∨ 100 < t)) then
    some "Theory marks must be between 0 and 100"
  else if m.practical.any (fun t => decide (t < 0 ∨ 100 < t)) then
    some "Practical marks must be between 0 and 100"
  else if m.internal.any (fun t => decide (t < 0 ∨ 100 < t)) then
    some "Internal marks must be between 0 and 100"
  else none

/-- `document.save()` on an existing document: the stored row with the same
id is replaced by the saved state. -/
def saveReplace (store : List Grade) (g : Grade) : List Grade :=
  store.map (fun h => if h.id = g.id then g else h)

/-- Request body of POST /api/grades (after express-validator parsing;
`examType = 'Regular'` default applied at destructuring). -/
structure GradeBody where
  student      : Nat
  subject      : Nat
  marks        : Option MarksInput
  semester     : Nat
  academicYear : String
  examType     : ExamType
  remarks      : Option String
  deriving DecidableEq, Repr

/-- POST /api/grades: create a grade, or update the existing grade with the
same (student, subject, examType) key.  `freshId` models the id Mongo
assigns to a newly inserted document.  Returns the new store together with
the saved grade. -/
def createOrUpdateGrade (actor : Actor) (body : GradeBody) (subjects : List Subject)
    (users : List User) (store : List Grade) (freshId : Nat) :
    Except ApiError (List Grade × Grade) :=
  if ¬ authorizeRoles [.admin, .hod, .teacher] actor then
    .error (.forbidden "Access denied")
  else if ¬ (1 ≤ body.semester ∧ body.semester ≤ 8 ∧ body.academicYear ≠ "") then
    .error (.badRequest "Validation failed")
  else
    match subjects.find? (fun s => s.id == body.subject) with
    | none => .error (.badRequest "Invalid subject")
    | some subjectDoc =>
      if actor.role = .teacher ∧ subjectDoc.teacher ≠ some actor.id then
        .error (.forbidden "You are not assigned to this subject")
      else if actor.role = .hod ∧ subjectDoc.department ≠ actor.department then
        .error (.forbidden "Subject not in your department")
      else
        match users.find? (fun u => u.id == body.student) with
        | none => .error (.badRequest "Invalid student")
        | some studentDoc =>
          if studentDoc.role ≠ .student then .error (.badRequest "Invalid student")
          else if studentDoc.department ≠ subjectDoc.department then
            .error (.badRequest "Student not in subject department")
          else
            match body.marks with
            | none => .error (.badRequest "Valid marks object is required")
            | some marks =>
              match marksError marks with
              | some msg => .error (.badRequest msg)
              | none =>
                match store.find? (fun g =>
                    g.student == body.student && g.subject == body.subject &&
                    g.examType == body.examType) with
                | some existingGrade =>
                  let updated := preSave { existingGrade with
                    marks := Marks.ofInput marks
                    semester := body.semester
                    academicYear := body.academicYear
                    teacher := actor.id
                    remarks := body.remarks
                    isPublished := false }
                  .ok (saveReplace store updated, updated)
                | none =>
                  let grade := preSave {
                    id := freshId
                    student := body.student
                    subject := body.subject
                    teacher := actor.id
                    marks := Marks.ofInput marks
                    grade := ""
                    gradePoints := 0
                    semester := body.semester
                    academicYear := body.academicYear
                    examType := body.examType
                    isPublished := false
                    publishedAt := none
                    remarks := body.remarks }
                  .ok (store ++ [grade], grade)

/-- Request body of PUT /api/grades/:id. -/
structure UpdateBody where
  marks       : Option MarksInput
  remarks     : Option String
  isPublished : Option Bool
  deriving DecidableEq, Repr

/-- The permission check of PUT /api/grades/:id (also DELETE for the hod
branch): teachers must own the grade, HODs must own the subject's
department.  A dangling subject reference makes the JS handler throw on
`subject.department`, surfacing as a 500. -/
def updateGradePerm (actor : Actor) (grade : Grade) (subjects : List Subject) :
    Option ApiError :=
  if actor.role = .teacher then
    if grade.teacher ≠ actor.id then some (.forbidden "Access denied") else none
  else if actor.role = .hod then
    match subjects.find? (fun s => s.id == grade.subject) with
    | none => some .serverError
    | some subject =>
      if subject.department ≠ actor.department then some (.forbidden "Access denied")
      else none
  else none

/-- PUT /api/grades/:id: update marks / remarks / publication status of one
grade, then save (pre-save hook recomputes derived fields). -/
def updateGrade (actor : Actor) (gradeId : Nat) (body : UpdateBody)
    (subjects : List Subject) (store : List Grade) (now : Nat) :
    Except ApiError (List Grade × Grade) :=
  if ¬ authorizeRoles [.admin, .hod, .teacher] actor then
    .error (.forbidden "Access denied")
  else
    match store.find? (fun g => g.id == gradeId) with
    | none => .error (.notFound "Grade not found")
    | some grade =>
      match updateGradePerm actor grade subjects with
      | some e => .error e
      | none =>
        match body.marks with
        | some m =>
          match marksError m with
          | some msg => .error (.badRequest msg)
          | none =>
            let g1 := { grade with marks := Marks.ofInput m }
            let g2 := match body.remarks with
              | some r => { g1 with remarks := some r }
              | none => g1
            let g3 := match body.isPublished with
              | some b =>
                if b then { g2 with isPublished := b, publishedAt := some now }
                else { g2 with isPublished := b }
              | none => g2
            let saved := preSave g3
            .ok (saveReplace store saved, saved)
        | none =>
          let g2 := match body.remarks with
            | some r => { grade with remarks := some r }
            | none => grade
          let g3 := match body.isPublished with
            | some b =>
              if b then { g2 with isPublished := b, publishedAt := some now }
              else { g2 with isPublished := b }
            | none => g2
          let saved := preSave g3
          .ok (saveReplace store saved, saved)

/-- GET /api/grades/:id: fetch one grade, with the role-based permission
checks of the handler. -/
def getGradeById (actor : Actor) (gradeId : Nat) (subjects : List Subject)
    (store : List Grade) : Except ApiError Grade :=
  match store.find? (fun g => g.id == gradeId) with
  | none => .error (.notFound "Grade not found")
  | some grade =>
    if actor.role = .student then
      if grade.student ≠ actor.id ∨ grade.isPublished = false then
        .error (.forbidden "Access denied")
      else .ok grade
    else if actor.role = .teacher then
      if grade.teacher ≠ actor.id then .error (.forbidden "Access denied")
      else .ok grade
    else if actor.role = .hod then
      match subjects.find? (fun s => s.id == grade.subject) with
      | none => .error .serverError
      | some subject =>
        if subject.department ≠ actor.department then .error (.forbidden "Access denied")
        else .ok grade
    else .ok grade

/-- The `subject` key of the Mongo filter built by GET /api/grades: absent,
a single id, or an `$in` list. -/
inductive SubjFilter where
  | any
  | eq (id : Nat)
  | inList (ids : List Nat)
  deriving DecidableEq, Repr

/-- Whether a grade's subject id satisfies the subject filter key. -/
def SubjFilter.holds : SubjFilter → Nat → Bool
  | .any, _ => true
  | .eq i, s => s == i
  | .inList l, s => l.contains s

/-- Query string of GET /api/grades (pagination omitted — it slices the
result, it does not change which rows match). -/
structure GradesQuery where
  student      : Option Nat
  subject      : Option Nat
  teacher      : Option Nat
  semester     : Option Nat
  academicYear : Option String
  examType     : Option ExamType
  isPublished  : Option Bool
  deriving DecidableEq, Repr

/-- The Mongo filter object GET /api/grades builds. -/
structure GradesFilter where
  student      : Option Nat
  subject      : SubjFilter
  teacher      : Option Nat
  semester     : Option Nat
  academicYear : Option String
  examType     : Option ExamType
  isPublished  : Option Bool
  deriving DecidableEq, Repr

/-- GET /api/grades: construct the filter — role-based scoping first, then
the query-string filters, in source order. -/
def buildGradesFilter (actor : Actor) (q : GradesQuery) (subjects : List Subject) :
    GradesFilter :=
  let f : GradesFilter :=
    { student := none, subject := .any, teacher := none, semester := none
      academicYear := none, examType := none, isPublished := none }
  let f :=
    if actor.role = .student then
      { f with student := some actor.id, isPublished := some true }
    else if actor.role = .teacher then
      { f with teacher := some actor.id }
    else if actor.role = .hod then
      let deptSubjects := (subjects.filter (fun s => s.department == actor.department)).map (fun s => s.id)
      { f with subject := SubjFilter.inList deptSubjects }
    else f
  let f := match q.student with
    | some sid =>
      if [Role.admin, Role.hod, Role.teacher].contains actor.role then
        { f with student := some sid }
      else f
    | none => f
  let f := match q.subject with
    | some su => { f with subject := .eq su }
    | none => f
  let f := match q.teacher with
    | some t =>
      if [Role.admin, Role.hod].contains actor.role then { f with teacher := some t }
      else f
    | none => f
  let f := match q.semester with
    | some s => { f with semester := some s }
    | none => f
  let f := match q.academicYear with
    | some ay => { f with academicYear := some ay }
    | none => f
  let f := match q.examType with
    | some e => { f with examType := some e }
    | none => f
  let f := match q.isPublished with
    | some b => if actor.role ≠ .student then { f with isPublished := some b } else f
    | none => f
  f

/-- Whether a stored grade matches the Mongo filter of GET /api/grades. -/
def matchesGradesFilter (f : GradesFilter) (g : Grade) : Bool :=
  f.student.all (fun v => g.student == v) &&
  f.subject.holds g.subject &&
  f.teacher.all (fun v => g.teacher == v) &&
  f.semester.all (fun v => g.semester == v) &&
  f.academicYear.all (fun v => g.academicYear == v) &&
  f.examType.all (fun v => g.examType == v) &&
  f.isPublished.all (fun v => g.isPublished == v)

/-- GET /api/grades: the set of rows the query returns (sort order and
pagination omitted). -/
def listGrades (actor : Actor) (q : GradesQuery) (subjects : List Subject)
    (store : List Grade) : List Grade :=
  store.filter (matchesGradesFilter (buildGradesFilter actor q subjects))

/-- All three bulk-create routes share one loop shape:
`for (i …) try { body } catch { errors.push({row: i+1, …}) }` over a store
`α` and a fresh-id counter, recording per row either a success payload `β`
or an error message.  The body is the try-block: `.inl` commits a new
store/counter and a success payload, `.inr` reports the row's error and
leaves the store untouched. -/
def BulkState (α β : Type) : Type :=
  α × Nat × List (Nat × β) × List (Nat × String)

/-- One iteration of the shared bulk loop at 0-based index `i`
(rows are reported 1-based). -/
def bulkStep (body : α × Nat → ι → (α × Nat × β) ⊕ String)
    (st : BulkState α β) (i : Nat) (item : ι) : BulkState α β :=
  match body (st.1, st.2.1) item with
  | .inl (a, n, b) => (a, n, st.2.2.1 ++ [(i + 1, b)], st.2.2.2)
  | .inr msg => (st.1, st.2.1, st.2.2.1, st.2.2.2 ++ [(i + 1, msg)])

/-- The shared bulk loop: process the items left to right, threading the
store, the fresh-id counter and the accumulated results. -/
def bulkLoop (body : α × Nat → ι → (α × Nat × β) ⊕ String)
    (items : List ι) (i : Nat) (st : BulkState α β) : BulkState α β :=
  match items with
  | [] => st
  | item :: rest => bulkLoop body rest (i + 1) (bulkStep body st i item)

/-- One element of the `grades` array sent to POST /api/grades/bulk-create.
`student`/`subject` are `Option` because the handler checks their presence
(`!gradeData.student || !gradeData.subject`). -/
structure BulkGradeItem where
  student      : Option Nat
  subject      : Option Nat
  marks        : MarksInput
  semester     : Nat
  academicYear : String
  examType     : Option ExamType
  isPublished  : Option Bool
  remarks      : Option String
  deriving DecidableEq, Repr

/-- What the grade bulk-create loop records for a successful row. -/
inductive BulkAction where
  | created | updated
  deriving DecidableEq, Repr

/-- The try-block of the POST /api/grades/bulk-create loop: missing
student/subject is a row error; an existing (student, subject, examType)
row is updated (marks replaced, teacher overwritten with the actor, then
saved); otherwise a new grade is created with the actor as teacher. -/
def gradeItemBody (actor : Actor) :
    List Grade × Nat → BulkGradeItem → (List Grade × Nat × (BulkAction × Nat)) ⊕ String :=
  fun (st : List Grade × Nat) item =>
    let store := st.1
    let nextId := st.2
    match item.student, item.subject with
    | some student, some subject =>
      let examType := item.examType.getD .Regular
      match store.find? (fun g =>
          g.student == student && g.subject == subject && g.examType == examType) with
      | some existingGrade =>
        let updated := preSave { existingGrade with
          marks := Marks.ofInput item.marks
          teacher := actor.id }
        .inl (saveReplace store updated, nextId, .updated, updated.id)
      | none =>
        let grade := preSave {
          id := nextId
          student := student
          subject := subject
          teacher := actor.id
          marks := Marks.ofInput item.marks
          grade := ""
          gradePoints := 0
          semester := item.semester
          academicYear := item.academicYear
          examType := examType
          isPublished := item.isPublished.getD false
          publishedAt := none
          remarks := item.remarks }
        .inl (store ++ [grade], nextId + 1, .created, grade.id)
    | _, _ => .inr "Student and subject are required"

/-- The POST /api/grades/bulk-create loop over all items. -/
def bulkCreateGrades (actor : Actor) (items : List BulkGradeItem)
    (store : List Grade) (nextId : Nat) : BulkState (List Grade) (BulkAction × Nat) :=
  bulkLoop (gradeItemBody actor) items 0 (store, nextId, [], [])

/-- POST /api/grades/bulk-create with its surrounding checks. -/
def bulkCreateGradesRoute (actor : Actor) (items : List BulkGradeItem)
    (store : List Grade) (nextId : Nat) :
    Except ApiError (BulkState (List Grade) (BulkAction × Nat)) :=
  if ¬ authorizeRoles [.admin, .hod, .teacher] actor then
    .error (.forbidden "Access denied")
  else if items.isEmpty then .error (.badRequest "Grades array is required")
  else .ok (bulkCreateGrades actor items store nextId)

/-- The permission loop of POST /api/grades/publish-bulk: the first failing
grade yields the error (teachers must own every grade, HODs every subject's
department; a dangling subject reference throws → 500). -/
def publishPermError (actor : Actor) (subjects : List Subject) (grades : List Grade) :
    Option ApiError :=
  grades.findSome? (fun g =>
    if actor.role = .teacher then
      if g.teacher ≠ actor.id then some (.forbidden "Access denied for some grades")
      else none
    else if actor.role = .hod then
      match subjects.find? (fun s => s.id == g.subject) with
      | none => some .serverError
      | some s =>
        if s.department ≠ actor.department then
          some (.forbidden "Access denied for some grades")
        else none
    else none)

/-- POST /api/grades/publish-bulk: after the checks, `updateMany` sets
`isPublished`/`publishedAt` directly — no save, so no pre-save hook runs
and no other field changes. -/
def publishBulk (actor : Actor) (gradeIds : List Nat) (subjects : List Subject)
    (store : List Grade) (now : Nat) : Except ApiError (List Grade) :=
  if ¬ authorizeRoles [.admin, .hod, .teacher] actor then
    .error (.forbidden "Access denied")
  else
    let grades := store.filter (fun g => gradeIds.contains g.id)
    if grades.length ≠ gradeIds.length then .error (.badRequest "Some grades not found")
    else
      match publishPermError actor subjects grades with
      | some e => .error e
      | none =>
        .ok (store.map (fun g =>
          if gradeIds.contains g.id then
            { g with isPublished := true, publishedAt := some now }
          else g))

/-- DELETE /api/grades/:id. -/
def deleteGrade (actor : Actor) (gradeId : Nat) (subjects : List Subject)
    (store : List Grade) : Except ApiError (List Grade) :=
  if ¬ authorizeRoles [.admin, .hod] actor then .error (.forbidden "Access denied")
  else
    match store.find? (fun g => g.id == gradeId) with
    | none => .error (.notFound "Grade not found")
    | some grade =>
      if actor.role = .hod then
        match subjects.find? (fun s => s.id == grade.subject) with
        | none => .error .serverError
        | some subject =>
          if subject.department ≠ actor.department then
            .error (.forbidden "Access denied")
          else .ok (store.filter (fun g => g.id ≠ gradeId))
      else .ok (store.filter (fun g => g.id ≠ gradeId))

/-- The permission part of GET /api/grades/subject/:subjectId/statistics
(the analytics endpoint): returns the subject when the actor may see its
statistics. -/
def subjectStatsPerm (actor : Actor) (subjectId : Nat) (subjects : List Subject) :
    Except ApiError Subject :=
  if ¬ authorizeRoles [.admin, .hod, .teacher] actor then
    .error (.forbidden "Access denied")
  else
    match subjects.find? (fun s => s.id == subjectId) with
    | none => .error (.notFound "Subject not found")
    | some subject =>
      if actor.role = .teacher ∧ subject.teacher ≠ some actor.id then
        .error (.forbidden "Access denied")
      else if actor.role = .hod ∧ subject.department ≠ actor.department then
        .error (.forbidden "Access denied")
      else .ok subject

/-- `x.toFixed(2)` followed by `parseFloat`: round to 2 decimal places,
ties going to the larger value (the ECMAScript `toFixed` rule for the
non-negative values arising here). -/
def round2 (q : ℚ) : ℚ :=
  ((⌊q * 100 + 1 / 2⌋ : ℤ) : ℚ) / 100

/-- A grade row as returned by the CGPA query after
`.populate('subject', 'name code credits semester academicYear')`. -/
structure PGrade where
  grade   : Grade
  subject : Subject
  deriving DecidableEq, Repr

/-- One value of the `semesterData` object while the CGPA loop runs. -/
@[ext]
structure SemAccum where
  semester         : Nat
  totalGradePoints : ℚ
  totalCredits     : ℚ
  grades           : List PGrade
  deriving DecidableEq, Repr

/-- One element of the `semesterWise` array of the CGPA response
(`{...sem, sgpa}`). -/
structure SemesterEntry where
  semester         : Nat
  totalGradePoints : ℚ
  totalCredits     : ℚ
  grades           : List PGrade
  sgpa             : ℚ
  deriving DecidableEq, Repr

/-- The GET /api/grades/student/:studentId/cgpa response payload. -/
structure CGPAResult where
  cgpa         : ℚ
  totalCredits : ℚ
  gradesCount  : Nat
  semesterWise : List SemesterEntry
  overallGrades : List PGrade
  deriving DecidableEq, Repr

/-- The zero-valued payload returned when no published grade matches. -/
def zeroCGPAResult : CGPAResult :=
  { cgpa := 0, totalCredits := 0, gradesCount := 0, semesterWise := [], overallGrades := [] }

/-- One iteration of the `grades.forEach` loop of the CGPA handler:
initialise the semester bucket if absent, then add
`gradePoints × credits` and `credits` to the bucket and to the running
overall totals, and push the grade into the bucket. -/
def cgpaStep (acc : List SemAccum × ℚ × ℚ) (pg : PGrade) : List SemAccum × ℚ × ℚ :=
  let semData := acc.1
  let totalGradePoints := acc.2.1
  let totalCredits := acc.2.2
  let sem := pg.grade.semester
  let credits := pg.subject.credits
  let gradePoints := pg.grade.gradePoints * credits
  let semData :=
    if semData.any (fun a => a.semester == sem) then semData
    else semData ++ [{ semester := sem, totalGradePoints := 0, totalCredits := 0, grades := [] }]
  let semData := semData.map (fun a =>
    if a.semester == sem then
      { a with
          totalGradePoints := a.totalGradePoints + gradePoints
          totalCredits := a.totalCredits + credits
          grades := a.grades ++ [pg] }
    else a)
  (semData, totalGradePoints + gradePoints, totalCredits + credits)

/-- `Object.values(semesterData)`: a JS object with integer-like keys
enumerates them in ascending numeric order, whatever the insertion order. -/
def objectValuesBySemester (semData : List SemAccum) : List SemAccum :=
  List.insertionSort (fun a b => a.semester ≤ b.semester) semData

/-- The CGPA/SGPA computation of GET /api/grades/student/:studentId/cgpa on
the selected (published, populated) grade rows. -/
def computeCGPA (gs : List PGrade) : CGPAResult :=
  let folded := gs.foldl cgpaStep ([], 0, 0)
  let semData := folded.1
  let totalGradePoints := folded.2.1
  let totalCredits := folded.2.2
  let semesterWise := (objectValuesBySemester semData).map (fun s =>
    { semester := s.semester
      totalGradePoints := s.totalGradePoints
      totalCredits := s.totalCredits
      grades := s.grades
      sgpa := if s.totalCredits > 0 then round2 (s.totalGradePoints / s.totalCredits) else 0 })
  let cgpa := if totalCredits > 0 then round2 (totalGradePoints / totalCredits) else 0
  { cgpa := cgpa
    totalCredits := totalCredits
    gradesCount := gs.length
    semesterWise := semesterWise
    overallGrades := gs }

/-- Query string of the CGPA endpoint. -/
structure CGPAQuery where
  semester     : Option Nat
  academicYear : Option String
  deriving DecidableEq, Repr

/-- The Mongo selection of the CGPA endpoint:
`{student, isPublished: true}` plus the optional query filters. -/
def cgpaSelect (studentId : Nat) (q : CGPAQuery) (store : List Grade) : List Grade :=
  store.filter (fun g =>
    g.student == studentId && g.isPublished &&
    q.semester.all (fun s => g.semester == s) &&
    q.academicYear.all (fun ay => g.academicYear == ay))

/-- `.sort({ semester: 1, ... })` on the selected rows. -/
def sortBySemester (gs : List PGrade) : List PGrade :=
  List.insertionSort (fun a b => a.grade.semester ≤ b.grade.semester) gs

/-- GET /api/grades/student/:studentId/cgpa.  The permission check only
constrains student actors; the populated subject must exist for every
selected row (a dangling reference throws in JS → 500). -/
def getStudentCGPA (actor : Actor) (studentId : Nat) (q : CGPAQuery)
    (subjects : List Subject) (store : List Grade) : Except ApiError CGPAResult :=
  if actor.role = .student ∧ actor.id ≠ studentId then
    .error (.forbidden "Access denied")
  else
    let selected := cgpaSelect studentId q store
    if selected.isEmpty then .ok zeroCGPAResult
    else
      let populated := selected.map (fun g =>
        (subjects.find? (fun s => s.id == g.subject)).map (fun s => PGrade.mk g s))
      if populated.all (fun p => p.isSome) then
        .ok (computeCGPA (sortBySemester (populated.reduceOption)))
      else .error .serverError

/-- One element of the `subjects` array sent to POST /api/subjects/bulk-create. -/
structure SubjectItem where
  name         : String
  code         : String
  credits      : ℚ
  department   : Nat
  teacher      : Option Nat
  semester     : Nat
  academicYear : String
  deriving DecidableEq, Repr

/-- The try-block of the POST /api/subjects/bulk-create loop: HODs have the
item's department overwritten with their own; a subject with the same
(uppercased) code in the same department is a row error; otherwise the
subject is inserted.  Success rows carry (code, name). -/
def subjectItemBody (actor : Actor) :
    List Subject × Nat → SubjectItem → (List Subject × Nat × (String × String)) ⊕ String :=
  fun (st : List Subject × Nat) item =>
    let store := st.1
    let nextId := st.2
    let department := if actor.role = .hod then actor.department else item.department
    let code := item.code.toUpper
    if store.any (fun s => s.code == code && s.department == department) then
      .inr ("Subject " ++ item.code ++ " already exists in this department")
    else
      let subject : Subject :=
        { id := nextId, code := code, department := department, teacher := item.teacher
          credits := item.credits, semester := item.semester }
      .inl (store ++ [subject], nextId + 1, item.code, item.name)

/-- The POST /api/subjects/bulk-create loop over all items. -/
def bulkCreateSubjects (actor : Actor) (items : List SubjectItem)
    (store : List Subject) (nextId : Nat) : BulkState (List Subject) (String × String) :=
  bulkLoop (subjectItemBody actor) items 0 (store, nextId, [], [])

/-- POST /api/subjects/bulk-create with its surrounding checks. -/
def bulkCreateSubjectsRoute (actor : Actor) (items : List SubjectItem)
    (store : List Subject) (nextId : Nat) :
    Except ApiError (BulkState (List Subject) (String × String)) :=
  if ¬ authorizeRoles [.admin, .hod] actor then .error (.forbidden "Access denied")
  else if items.isEmpty then .error (.badRequest "Subjects array is required")
  else .ok (bulkCreateSubjects actor items store nextId)

/-- One element of the `users` array sent to POST /api/users/bulk-create. -/
structure UserItem where
  userId     : String
  email      : String
  firstName  : String
  lastName   : String
  role       : Role
  department : Nat
  deriving DecidableEq, Repr

/-- The try-block of the POST /api/users/bulk-create loop: an existing user
with the same userId or email is a row error; otherwise the user is
inserted.  Success rows carry (userId, full name). -/
def userItemBody :
    List User × Nat → UserItem → (List User × Nat × (String × String)) ⊕ String :=
  fun (st : List User × Nat) item =>
    let store := st.1
    let nextId := st.2
    if store.any (fun u => u.userId == item.userId || u.email == item.email) then
      .inr ("User " ++ item.userId ++ " already exists")
    else
      let user : User :=
        { id := nextId, userId := item.userId, email := item.email
          role := item.role, department := item.department }
      .inl (store ++ [user], nextId + 1, item.userId, item.firstName ++ " " ++ item.lastName)

/-- The POST /api/users/bulk-create loop over all items. -/
def bulkCreateUsers (items : List UserItem) (store : List User) (nextId : Nat) :
    BulkState (List User) (String × String) :=
  bulkLoop userItemBody items 0 (store, nextId, [], [])

/-- POST /api/users/bulk-create with its surrounding checks (admin only). -/
def bulkCreateUsersRoute (actor : Actor) (items : List UserItem)
    (store : List User) (nextId : Nat) :
    Except ApiError (BulkState (List User) (String × String)) :=
  if ¬ authorizeRoles [.admin] actor then .error (.forbidden "Access denied")
  else if items.isEmpty then .error (.badRequest "Users array is required")
  else .ok (bulkCreateUsers items store nextId)

/-!  Specification-side definitions (written from the spec's formulas, to
be compared with the source-translated functions above), and the derived
field invariant. -/

/-- Spec §4.3: `Σ(gradePoints_i × credits_i)` over a list of rows. -/
def specWeightedPoints (gs : List PGrade) : ℚ :=
  (gs.map (fun p => p.grade.gradePoints * p.subject.credits)).sum

/-- Spec §4.3: `Σ(credits_i)` over a list of rows. -/
def specCredits (gs : List PGrade) : ℚ :=
  (gs.map (fun p => p.subject.credits)).sum

/-- The rows of a selection that belong to one semester. -/
def semGroup (gs : List PGrade) (s : Nat) : List PGrade :=
  gs.filter (fun p => p.grade.semester == s)

/-- The semester bucket the spec prescribes for semester `s` of a selection:
that semester's rows with their credit-weighted totals. -/
def mkSemAccum (gs : List PGrade) (s : Nat) : SemAccum :=
  { semester := s
    totalGradePoints := specWeightedPoints (semGroup gs s)
    totalCredits := specCredits (semGroup gs s)
    grades := semGroup gs s }

/-- Invariant relating `semesterData` to the rows already processed:
exactly one bucket per distinct semester, each equal to the spec's bucket. -/
def semDataInv (done : List PGrade) (sd : List SemAccum) : Prop :=
  (∀ s : Nat, sd.countP (fun e => e.semester == s) =
      if s ∈ done.map (fun p => p.grade.semester) then 1 else 0) ∧
  ∀ e ∈ sd, e = mkSemAccum done e.semester

/-- Spec §3 Grade invariant: `marks.total` is the sum of the (defaulted)
components and the letter grade / grade points are the scale applied to
that total. -/
def gradeInvariant (g : Grade) : Prop :=
  g.marks.total = g.marks.theory.getD 0 + g.marks.practical.getD 0 + g.marks.internal.getD 0 ∧
  g.grade = (calculateGrade g.marks.total).1 ∧
  g.gradePoints = (calculateGrade g.marks.total).2

/-- A concrete grade used to instantiate hypothesis-bearing theorems:
marks 45 + 30 + 14 = 89, with deliberately stale derived fields. -/
def wGrade : Grade :=
  { id := 0, student := 0, subject := 0, teacher := 0
    marks := { theory := some 45, practical := some 30, internal := some 14, total := 7 }
    grade := "F", gradePoints := 0, semester := 1, academicYear := "2024-25"
    examType := .Regular, isPublished := false, publishedAt := none, remarks := none }

/-- Concrete inputs shared by witnesses: an admin actor, -/
def wActor : Actor := ⟨1, .admin, 0⟩

/-- a valid marks object, -/
def wMarks : MarksInput := ⟨some 40, some 30, some 19⟩

/-- a second valid marks object, -/
def wMarks2 : MarksInput := ⟨some 10, some 10, some 10⟩

/-- a POST /api/grades body, -/
def wBody : GradeBody := ⟨2, 3, some wMarks, 1, "2024-25", .Regular, none⟩

/-- the subject it refers to (assigned to teacher 4), -/
def wSubject : Subject := ⟨3, "CS101", 1, some 4, 4, 1⟩

/-- the student it refers to, -/
def wStudent : User := ⟨2, "s1", "s1@x", .student, 1⟩

/-- the document the create branch builds before saving, -/
def wNew : Grade :=
  { id := 0, student := 2, subject := 3, teacher := 1, marks := Marks.ofInput wMarks
    grade := "", gradePoints := 0, semester := 1, academicYear := "2024-25"
    examType := .Regular, isPublished := false, publishedAt := none, remarks := none }

/-- a published grade already in the store, -/
def wPub : Grade :=
  { id := 5, student := 2, subject := 3, teacher := 4
    marks := { theory := some 40, practical := some 30, internal := some 19, total := 89 }
    grade := "A+", gradePoints := 9, semester := 1, academicYear := "2024-25"
    examType := .Regular, isPublished := true, publishedAt := some 10, remarks := none }

/-- and that grade after PUT /api/grades/:id replaces its marks. -/
def wPubEdited : Grade := { wPub with marks := Marks.ofInput wMarks2 }

/-- The document the bulk-create branch builds for an unassigned teacher
(actor 5) writing subject 3. -/
def wUnassignedNew : Grade :=
  { id := 0, student := 2, subject := 3, teacher := 5, marks := Marks.ofInput wMarks
    grade := "", gradePoints := 0, semester := 1, academicYear := "2024-25"
    examType := .Regular, isPublished := false, publishedAt := none, remarks := none }

/-- Subject 3 again, but belonging to department 2. -/
def wSubjectD2 : Subject := ⟨3, "CS201", 2, some 4, 4, 1⟩

/-- The spec §8 two-semester example: semester 1 has one 4-credit subject
graded O (10 points), semester 2 one 2-credit subject graded P (4 points). -/
def exG1 : Grade :=
  { id := 1, student := 7, subject := 10, teacher := 4
    marks := { theory := some 50, practical := some 20, internal := some 20, total := 90 }
    grade := "O", gradePoints := 10, semester := 1, academicYear := "1st Year"
    examType := .Regular, isPublished := true, publishedAt := none, remarks := none }

/-- The semester-2 grade of the two-semester example. -/
def exG2 : Grade :=
  { id := 2, student := 7, subject := 11, teacher := 4
    marks := { theory := some 20, practical := some 10, internal := some 15, total := 45 }
    grade := "P", gradePoints := 4, semester := 2, academicYear := "1st Year"
    examType := .Regular, isPublished := true, publishedAt := none, remarks := none }

/-- The 4-credit subject of semester 1. -/
def exS1 : Subject := ⟨10, "M1", 1, some 4, 4, 1⟩

/-- The 2-credit subject of semester 2. -/
def exS2 : Subject := ⟨11, "M2", 1, some 4, 2, 2⟩

/-- The populated two-semester selection. -/
def exTwoSems : List PGrade := [⟨exG1, exS1⟩, ⟨exG2, exS2⟩]

/-!  Lemmas and claim theorems. -/

/-- The scale function hits exactly the spec's table on every band. -/
theorem calculateGrade_bands (x : ℚ) :
    (90 ≤ x → calculateGrade x = ("O", 10)) ∧
    (80 ≤ x ∧ x < 90 → calculateGrade x = ("A+", 9)) ∧
    (70 ≤ x ∧ x < 80 → calculateGrade x = ("A", 8)) ∧
    (60 ≤ x ∧ x < 70 → calculateGrade x = ("B+", 7)) ∧
    (55 ≤ x ∧ x < 60 → calculateGrade x = ("B", 6)) ∧
    (50 ≤ x ∧ x < 55 → calculateGrade x = ("C", 5)) ∧
    (40 ≤ x ∧ x < 50 → calculateGrade x = ("P", 4)) ∧
    (x < 40 → calculateGrade x = ("F", 0)) := by
  unfold calculateGrade
  refine ⟨fun h => ?_, fun h => ?_, fun h => ?_, fun h => ?_, fun h => ?_,
    fun h => ?_, fun h => ?_, fun h => ?_⟩
  · rw [if_pos (by linarith)]
  · rw [if_neg (by simp; linarith [h.1, h.2]), if_pos (by simp; linarith [h.1])]
  · rw [if_neg (by simp; linarith [h.1, h.2]), if_neg (by simp; linarith [h.2]),
      if_pos (by simp; linarith [h.1])]
  · rw [if_neg (by simp; linarith [h.1, h.2]), if_neg (by simp; linarith [h.2]),
      if_neg (by simp; linarith [h.2]), if_pos (by simp; linarith [h.1])]
  · rw [if_neg (by simp; linarith [h.1, h.2]), if_neg (by simp; linarith [h.2]),
      if_neg (by simp; linarith [h.2]), if_neg (by simp; linarith [h.2]),
      if_pos (by simp; linarith [h.1])]
  · rw [if_neg (by simp; linarith [h.1, h.2]), if_neg (by simp; linarith [h.2]),
      if_neg (by simp; linarith [h.2]), if_neg (by simp; linarith [h.2]),
      if_neg (by simp; linarith [h.2]), if_pos (by simp; linarith [h.1])]
  · rw [if_neg (by simp; linarith [h.1, h.2]), if_neg (by simp; linarith [h.2]),
      if_neg (by simp; linarith [h.2]), if_neg (by simp; linarith [h.2]),
      if_neg (by simp; linarith [h.2]), if_neg (by simp; linarith [h.2]),
      if_pos (by simp; linarith [h.1])]
  · rw [if_neg (by simp; linarith), if_neg (by simp; linarith),
      if_neg (by simp; linarith), if_neg (by simp; linarith),
      if_neg (by simp; linarith), if_neg (by simp; linarith),
      if_neg (by simp; linarith)]

/-- The pre-save hook's `marks.total`, by definition. -/
theorem preSave_total (g : Grade) :
    (preSave g).marks.total =
      g.marks.theory.getD 0 + g.marks.practical.getD 0 + g.marks.internal.getD 0 := rfl

/-- The pre-save hook's letter grade, by definition. -/
theorem preSave_grade (g : Grade) :
    (preSave g).grade = (calculateGrade ((preSave g).marks.total)).1 := rfl

/-- The pre-save hook's grade points, by definition. -/
theorem preSave_gradePoints (g : Grade) :
    (preSave g).gradePoints = (calculateGrade ((preSave g).marks.total)).2 := rfl

/-- Defaulted optional marks inherit the component bounds. -/
theorem getD_bounds {o : Option ℚ} (h : ∀ t ∈ o, 0 ≤ t ∧ t ≤ 100) :
    0 ≤ o.getD 0 ∧ o.getD 0 ≤ 100 := by
  cases o with
  | none => norm_num
  | some t => exact h t rfl

/-- C2: for every marks triple with each supplied component in [0,100]
(missing components defaulting to 0), the saved total is their sum and lies
in [0,300], and the derived letter grade and grade points match the fixed
scale exactly on every band. -/
theorem grade_total_and_scale (g : Grade)
    (ht : ∀ t ∈ g.marks.theory, 0 ≤ t ∧ t ≤ 100)
    (hp : ∀ t ∈ g.marks.practical, 0 ≤ t ∧ t ≤ 100)
    (hi : ∀ t ∈ g.marks.internal, 0 ≤ t ∧ t ≤ 100) :
    (preSave g).marks.total =
      g.marks.theory.getD 0 + g.marks.practical.getD 0 + g.marks.internal.getD 0 ∧
    (0 ≤ (preSave g).marks.total ∧ (preSave g).marks.total ≤ 300) ∧
    (90 ≤ (preSave g).marks.total →
      (preSave g).grade = "O" ∧ (preSave g).gradePoints = 10) ∧
    (80 ≤ (preSave g).marks.total ∧ (preSave g).marks.total < 90 →
      (preSave g).grade = "A+" ∧ (preSave g).gradePoints = 9) ∧
    (70 ≤ (preSave g).marks.total ∧ (preSave g).marks.total < 80 →
      (preSave g).grade = "A" ∧ (preSave g).gradePoints = 8) ∧
    (60 ≤ (preSave g).marks.total ∧ (preSave g).marks.total < 70 →
      (preSave g).grade = "B+" ∧ (preSave g).gradePoints = 7) ∧
    (55 ≤ (preSave g).marks.total ∧ (preSave g).marks.total < 60 →
      (preSave g).grade = "B" ∧ (preSave g).gradePoints = 6) ∧
    (50 ≤ (preSave g).marks.total ∧ (preSave g).marks.total < 55 →
      (preSave g).grade = "C" ∧ (preSave g).gradePoints = 5) ∧
    (40 ≤ (preSave g).marks.total ∧ (preSave g).marks.total < 50 →
      (preSave g).grade = "P" ∧ (preSave g).gradePoints = 4) ∧
    ((preSave g).marks.total < 40 →
      (preSave g).grade = "F" ∧ (preSave g).gradePoints = 0) := by
  obtain ⟨ht0, ht1⟩ := getD_bounds ht
  obtain ⟨hp0, hp1⟩ := getD_bounds hp
  obtain ⟨hi0, hi1⟩ := getD_bounds hi
  have hb := calculateGrade_bands ((preSave g).marks.total)
  refine ⟨preSave_total g, ⟨?_, ?_⟩, ?_, ?_, ?_, ?_, ?_, ?_, ?_, ?_⟩
  · rw [preSave_total]; linarith
  · rw [preSave_total]; linarith
  · exact fun h => ⟨by rw [preSave_grade, hb.1 h], by rw [preSave_gradePoints, hb.1 h]⟩
  · exact fun h => ⟨by rw [preSave_grade, hb.2.1 h],
      by rw [preSave_gradePoints, hb.2.1 h]⟩
  · exact fun h => ⟨by rw [preSave_grade, hb.2.2.1 h],
      by rw [preSave_gradePoints, hb.2.2.1 h]⟩
  · exact fun h => ⟨by rw [preSave_grade, hb.2.2.2.1 h],
      by rw [preSave_gradePoints, hb.2.2.2.1 h]⟩
  · exact fun h => ⟨by rw [preSave_grade, hb.2.2.2.2.1 h],
      by rw [preSave_gradePoints, hb.2.2.2.2.1 h]⟩
  · exact fun h => ⟨by rw [preSave_grade, hb.2.2.2.2.2.1 h],
      by rw [preSave_gradePoints, hb.2.2.2.2.2.1 h]⟩
  · exact fun h => ⟨by rw [preSave_grade, hb.2.2.2.2.2.2.1 h],
      by rw [preSave_gradePoints, hb.2.2.2.2.2.2.1 h]⟩
  · exact fun h => ⟨by rw [preSave_grade, hb.2.2.2.2.2.2.2 h],
      by rw [preSave_gradePoints, hb.2.2.2.2.2.2.2 h]⟩

/-- Witness for C2 at a concrete input: 45 + 30 + 14 = 89 is graded A+/9. -/
theorem grade_total_and_scale_witness :
    (preSave wGrade).marks.total = 89 ∧
    (preSave wGrade).grade = "A+" ∧ (preSave wGrade).gradePoints = 9 := by
  have h := grade_total_and_scale wGrade
    (by intro t htm; simp [wGrade] at htm; subst htm; norm_num)
    (by intro t htm; simp [wGrade] at htm; subst htm; norm_num)
    (by intro t htm; simp [wGrade] at htm; subst htm; norm_num)
  have htot : (preSave wGrade).marks.total = 89 := by
    rw [h.1]; norm_num [wGrade]
  exact ⟨htot, h.2.2.2.1 (by rw [htot]; norm_num)⟩

/-- Saving always re-establishes the derived-field invariant, whatever
total/grade/gradePoints the document carried before. -/
theorem preSave_gradeInvariant (g : Grade) : gradeInvariant (preSave g) :=
  ⟨rfl, preSave_grade g, preSave_gradePoints g⟩

/-- Membership in a store after `saveReplace`: either an untouched old row
or the saved document. -/
theorem saveReplace_mem {store : List Grade} {u g : Grade}
    (h : g ∈ saveReplace store u) : g ∈ store ∨ g = u := by
  unfold saveReplace at h
  obtain ⟨a, ha, hg⟩ := List.mem_map.1 h
  by_cases hc : a.id = u.id
  · right; rw [← hg, if_pos hc]
  · left; rw [← hg, if_neg hc]; exact ha

/-- Analysis of a successful POST /api/grades: the saved grade satisfies
the derived-field invariant and every row of the new store is an old row
or the saved grade. -/
theorem createOrUpdateGrade_ok {actor body subjects users store freshId out}
    (h : createOrUpdateGrade actor body subjects users store freshId = .ok out) :
    gradeInvariant out.2 ∧ ∀ g ∈ out.1, g ∈ store ∨ g = out.2 := by
  unfold createOrUpdateGrade at h
  dsimp only at h
  repeat' split at h
  all_goals cases h
  · exact ⟨preSave_gradeInvariant _, fun g hg => saveReplace_mem hg⟩
  · refine ⟨preSave_gradeInvariant _, fun g hg => ?_⟩
    rcases List.mem_append.1 hg with h1 | h1
    · exact Or.inl h1
    · exact Or.inr (List.mem_singleton.1 h1)

/-- Analysis of a successful PUT /api/grades/:id, same shape. -/
theorem updateGrade_ok {actor gradeId body subjects store now out}
    (h : updateGrade actor gradeId body subjects store now = .ok out) :
    gradeInvariant out.2 ∧ ∀ g ∈ out.1, g ∈ store ∨ g = out.2 := by
  unfold updateGrade at h
  dsimp only at h
  repeat' split at h
  all_goals cases h
  all_goals exact ⟨preSave_gradeInvariant _, fun g hg => saveReplace_mem hg⟩

/-- The shared bulk loop preserves any store property that every committed
body step preserves. -/
theorem bulkLoop_store_pres {α β ι : Type} (body : α × Nat → ι → (α × Nat × β) ⊕ String)
    (P : α → Prop)
    (hbody : ∀ a n item a' n' b, P a → body (a, n) item = .inl (a', n', b) → P a')
    (items : List ι) (i : Nat) (st : BulkState α β) (hst : P st.1) :
    P (bulkLoop body items i st).1 := by
  induction items generalizing i st with
  | nil => exact hst
  | cons item rest ih =>
    rw [bulkLoop]
    apply ih
    unfold bulkStep
    cases hb : body (st.1, st.2.1) item with
    | inl x =>
      obtain ⟨a', n', b⟩ := x
      exact hbody st.1 st.2.1 item a' n' b hst hb
    | inr msg => exact hst

/-- A committed step of the grade bulk body only adds or replaces rows that
went through the pre-save hook. -/
theorem gradeItemBody_pres (actor : Actor) (store0 : List Grade) :
    ∀ a n item a' n' b, (∀ g ∈ a, g ∈ store0 ∨ gradeInvariant g) →
      gradeItemBody actor (a, n) item = .inl (a', n', b) →
      ∀ g ∈ a', g ∈ store0 ∨ gradeInvariant g := by
  intro a n item a' n' b hP h
  unfold gradeItemBody at h
  dsimp only at h
  repeat' split at h
  all_goals cases h
  · intro g hg
    rcases saveReplace_mem hg with h1 | h1
    · exact hP g h1
    · exact Or.inr (h1 ▸ preSave_gradeInvariant _)
  · intro g hg
    rcases List.mem_append.1 hg with h1 | h1
    · exact hP g h1
    · exact Or.inr ((List.mem_singleton.1 h1) ▸ preSave_gradeInvariant _)

/-- C3: every persisted Grade satisfies the derived-field invariant: the
pre-save hook recomputes total/grade/gradePoints from marks on every save,
each write path that changes marks saves through it (POST create/update,
PUT update, bulk-create create/update), and the publish path changes only
isPublished/publishedAt, so it can neither supply nor leave stale derived
fields. -/
theorem persisted_grades_invariant :
    (∀ g : Grade, gradeInvariant (preSave g)) ∧
    (∀ actor body subjects users store freshId out,
      createOrUpdateGrade actor body subjects users store freshId = .ok out →
      gradeInvariant out.2 ∧ ∀ g ∈ out.1, g ∈ store ∨ gradeInvariant g) ∧
    (∀ actor gradeId body subjects store now out,
      updateGrade actor gradeId body subjects store now = .ok out →
      gradeInvariant out.2 ∧ ∀ g ∈ out.1, g ∈ store ∨ gradeInvariant g) ∧
    (∀ actor items store nextId,
      ∀ g ∈ (bulkCreateGrades actor items store nextId).1,
        g ∈ store ∨ gradeInvariant g) ∧
    (∀ actor gradeIds subjects store now store',
      publishBulk actor gradeIds subjects store now = .ok store' →
      ∀ g ∈ store', ∃ g0 ∈ store, g.marks = g0.marks ∧ g.grade = g0.grade ∧
        g.gradePoints = g0.gradePoints) := by
  refine ⟨preSave_gradeInvariant, ?_, ?_, ?_, ?_⟩
  · intro actor body subjects users store freshId out h
    obtain ⟨h1, h2⟩ := createOrUpdateGrade_ok h
    exact ⟨h1, fun g hg => (h2 g hg).imp id (fun e => by rw [e]; exact h1)⟩
  · intro actor gradeId body subjects store now out h
    obtain ⟨h1, h2⟩ := updateGrade_ok h
    exact ⟨h1, fun g hg => (h2 g hg).imp id (fun e => by rw [e]; exact h1)⟩
  · intro actor items store nextId
    exact bulkLoop_store_pres (gradeItemBody actor) (fun a => ∀ g ∈ a, g ∈ store ∨ gradeInvariant g)
      (gradeItemBody_pres actor store) items 0 (store, nextId, [], []) (fun g hg => Or.inl hg)
  · intro actor gradeIds subjects store now store' h
    unfold publishBulk at h
    dsimp only at h
    repeat' split at h
    all_goals cases h
    intro g hg
    obtain ⟨g0, hg0, hge⟩ := List.mem_map.1 hg
    refine ⟨g0, hg0, ?_⟩
    by_cases hc : gradeIds.contains g0.id = true
    · rw [← hge, if_pos hc]; exact ⟨rfl, rfl, rfl⟩
    · rw [← hge, if_neg hc]; exact ⟨rfl, rfl, rfl⟩

/-- Witness for C3: the concrete POST creates a grade that satisfies the
derived-field invariant. -/
theorem persisted_grades_invariant_witness :
    gradeInvariant (preSave wNew) ∧
    (∀ g ∈ [preSave wNew], g ∈ ([] : List Grade) ∨ gradeInvariant g) :=
  persisted_grades_invariant.2.1 wActor wBody [wSubject] [wStudent] [] 0
    ([preSave wNew], preSave wNew) rfl

/-- Counterexample to C5: a marks edit through PUT /api/grades/:id (body
carrying only `marks`) leaves a published grade published. -/
theorem marks_edit_resets_publication_counterexample :
    updateGrade wActor 5 ⟨some wMarks2, none, none⟩ [] [wPub] 99 =
      .ok ([preSave wPubEdited], preSave wPubEdited) ∧
    (preSave wPubEdited).isPublished = true :=
  ⟨rfl, rfl⟩

/-- C5 (amended): only the POST /api/grades upsert resets `isPublished`
after an edit (new grades also start unpublished); PUT /api/grades/:id and
the bulk-create update path leave the publication flag unchanged by a marks
edit unless the PUT body sets it explicitly. -/
theorem marks_edit_publication_behavior :
    (∀ actor body subjects users store freshId out,
      createOrUpdateGrade actor body subjects users store freshId = .ok out →
      out.2.isPublished = false) ∧
    (∀ actor gradeId body subjects store now out grade,
      body.isPublished = none →
      store.find? (fun g => g.id == gradeId) = some grade →
      updateGrade actor gradeId body subjects store now = .ok out →
      out.2.isPublished = grade.isPublished) ∧
    (∀ actor store nextId item student subject existing a' n' b,
      item.student = some student → item.subject = some subject →
      store.find? (fun g => g.student == student && g.subject == subject &&
        g.examType == item.examType.getD .Regular) = some existing →
      gradeItemBody actor (store, nextId) item = .inl (a', n', b) →
      ∃ u, a' = saveReplace store u ∧ u.isPublished = existing.isPublished) := by
  refine ⟨?_, ?_, ?_⟩
  · intro actor body subjects users store freshId out h
    unfold createOrUpdateGrade at h
    dsimp only at h
    repeat' split at h
    all_goals cases h
    all_goals rfl
  · intro actor gradeId body subjects store now out grade hnone hfind h
    unfold updateGrade at h
    dsimp only at h
    repeat' split at h
    all_goals cases h
    all_goals simp_all
    all_goals rfl
  · intro actor store nextId item student subject existing a' n' b hs hsub hfind h
    unfold gradeItemBody at h
    dsimp only at h
    repeat' split at h
    all_goals cases h
    all_goals simp_all
    · exact ⟨_, rfl, rfl⟩

/-- Witness for the amended C5: the concrete PUT marks edit keeps the
stored publication flag. -/
theorem marks_edit_publication_behavior_witness :
    (preSave wPubEdited).isPublished = wPub.isPublished :=
  marks_edit_publication_behavior.2.1 wActor 5 ⟨some wMarks2, none, none⟩ [] [wPub] 99
    ([preSave wPubEdited], preSave wPubEdited) wPub rfl rfl rfl

/-- C10: when a grade create request hits an existing
(student, subject, examType) record, both the single upsert and the
bulk-create update overwrite the grade's `teacher` with the acting user and
change no identity field (id, student, subject, examType); subsequent
teacher-role permission decisions are made against the stored `teacher`
value. -/
theorem upsert_reassigns_teacher :
    (∀ actor body subjects users store freshId out existing,
      store.find? (fun g => g.student == body.student && g.subject == body.subject &&
        g.examType == body.examType) = some existing →
      createOrUpdateGrade actor body subjects users store freshId = .ok out →
      out.2.teacher = actor.id ∧ out.2.id = existing.id ∧
      out.2.student = existing.student ∧ out.2.subject = existing.subject ∧
      out.2.examType = existing.examType ∧ out.1 = saveReplace store out.2) ∧
    (∀ actor store nextId item student subject existing a' n' b,
      item.student = some student → item.subject = some subject →
      store.find? (fun g => g.student == student && g.subject == subject &&
        g.examType == item.examType.getD .Regular) = some existing →
      gradeItemBody actor (store, nextId) item = .inl (a', n', b) →
      ∃ u, a' = saveReplace store u ∧ u.teacher = actor.id ∧ u.id = existing.id ∧
        u.student = existing.student ∧ u.subject = existing.subject ∧
        u.examType = existing.examType ∧ u.marks.theory = item.marks.theory ∧
        u.marks.practical = item.marks.practical ∧
        u.marks.internal = item.marks.internal) ∧
    (∀ actor grade subjects, actor.role = .teacher →
      (updateGradePerm actor grade subjects = none ↔ grade.teacher = actor.id)) := by
  refine ⟨?_, ?_, ?_⟩
  · intro actor body subjects users store freshId out existing hfind h
    unfold createOrUpdateGrade at h
    dsimp only at h
    rw [hfind] at h
    dsimp only at h
    repeat' split at h
    all_goals cases h
    exact ⟨rfl, rfl, rfl, rfl, rfl, rfl⟩
  · intro actor store nextId item student subject existing a' n' b hs hsub hfind h
    unfold gradeItemBody at h
    dsimp only at h
    rw [hs, hsub] at h
    dsimp only at h
    rw [hfind] at h
    dsimp only at h
    cases h
    exact ⟨_, rfl, rfl, rfl, rfl, rfl, rfl, rfl, rfl, rfl⟩
  · intro actor grade subjects hrole
    unfold updateGradePerm
    rw [if_pos hrole]
    constructor
    · intro h
      by_contra hne
      rw [if_pos hne] at h
      exact Option.noConfusion h
    · intro h
      rw [if_neg (by simp [h])]

/-- Witness for C10: the concrete upsert overwrites `teacher` with the
admin actor's id and keeps the identity key. -/
theorem upsert_reassigns_teacher_witness :
    (preSave { wPub with
        marks := Marks.ofInput wMarks
        semester := 1
        academicYear := "2024-25"
        teacher := wActor.id
        remarks := none
        isPublished := false }).teacher = wActor.id := by
  have h := upsert_reassigns_teacher.1 wActor wBody [wSubject] [wStudent] [wPub] 9 _ wPub
    rfl rfl
  exact h.1

/-- For a teacher who does not own a grade, the PUT permission check is the
authorization error. -/
theorem updateGradePerm_teacher_ne (actor : Actor) (grade : Grade)
    (subjects : List Subject) (hrole : actor.role = .teacher)
    (hne : grade.teacher ≠ actor.id) :
    updateGradePerm actor grade subjects = some (.forbidden "Access denied") := by
  unfold updateGradePerm
  rw [if_pos hrole, if_pos hne]

/-- The authorize middleware admits teachers on the grade-write routes. -/
theorem authorizeRoles_teacher {actor : Actor} (hrole : actor.role = .teacher) :
    authorizeRoles [.admin, .hod, .teacher] actor = true := by
  simp [authorizeRoles, hrole]

/-- Counterexample to C8: in a world whose only subject (id 3) is assigned
to teacher 4, teacher 5 writes a grade for it through
POST /api/grades/bulk-create, with no authorization error: the bulk route
performs no subject-assignment check. -/
theorem teacher_write_guard_counterexample :
    wSubject.id = 3 ∧ wSubject.teacher = some 4 ∧ wSubject.teacher ≠ some 5 ∧
    bulkCreateGradesRoute ⟨5, .teacher, 1⟩ [⟨some 2, some 3, wMarks, 1, "2024-25", none, none, none⟩] [] 0 =
      .ok ([preSave wUnassignedNew], 1, [(1, .created, 0)], []) :=
  ⟨rfl, rfl, by decide, rfl⟩

/-- C8 (amended): on the single-create endpoint a teacher can write a grade
only for a subject assigned to them, and on the direct update endpoint only
for a grade whose recorded teacher is them; in both cases an unauthorized
teacher receives the authorization error, not a silent no-op.  The
bulk-create endpoint enforces no such rule (see the counterexample). -/
theorem teacher_write_guard :
    (∀ actor body subjects users store freshId subjectDoc,
      actor.role = .teacher →
      (1 ≤ body.semester ∧ body.semester ≤ 8 ∧ body.academicYear ≠ "") →
      subjects.find? (fun s => s.id == body.subject) = some subjectDoc →
      subjectDoc.teacher ≠ some actor.id →
      createOrUpdateGrade actor body subjects users store freshId =
        .error (.forbidden "You are not assigned to this subject")) ∧
    (∀ actor body subjects users store freshId out,
      actor.role = .teacher →
      createOrUpdateGrade actor body subjects users store freshId = .ok out →
      ∃ subjectDoc, subjects.find? (fun s => s.id == body.subject) = some subjectDoc ∧
        subjectDoc.teacher = some actor.id) ∧
    (∀ actor gradeId body subjects store now grade,
      actor.role = .teacher →
      store.find? (fun g => g.id == gradeId) = some grade →
      grade.teacher ≠ actor.id →
      updateGrade actor gradeId body subjects store now =
        .error (.forbidden "Access denied")) ∧
    (∀ actor gradeId body subjects store now out grade,
      actor.role = .teacher →
      store.find? (fun g => g.id == gradeId) = some grade →
      updateGrade actor gradeId body subjects store now = .ok out →
      grade.teacher = actor.id) := by
  refine ⟨?_, ?_, ?_, ?_⟩
  · intro actor body subjects users store freshId subjectDoc hrole hval hfind hne
    unfold createOrUpdateGrade
    rw [if_neg (not_not_intro (authorizeRoles_teacher hrole)),
      if_neg (not_not_intro hval), hfind]
    dsimp only
    rw [if_pos ⟨hrole, hne⟩]
  · intro actor body subjects users store freshId out hrole h
    unfold createOrUpdateGrade at h
    rw [if_neg (not_not_intro (authorizeRoles_teacher hrole))] at h
    by_cases hval : 1 ≤ body.semester ∧ body.semester ≤ 8 ∧ body.academicYear ≠ ""
    · rw [if_neg (not_not_intro hval)] at h
      cases hfind : subjects.find? (fun s => s.id == body.subject) with
      | none => rw [hfind] at h; dsimp only at h; cases h
      | some subjectDoc =>
        rw [hfind] at h
        dsimp only at h
        by_cases hT : subjectDoc.teacher = some actor.id
        · exact ⟨subjectDoc, rfl, hT⟩
        · rw [if_pos ⟨hrole, hT⟩] at h; cases h
    · rw [if_pos hval] at h; cases h
  · intro actor gradeId body subjects store now grade hrole hfind hne
    unfold updateGrade
    rw [if_neg (not_not_intro (authorizeRoles_teacher hrole)), hfind]
    dsimp only
    rw [updateGradePerm_teacher_ne actor grade subjects hrole hne]
  · intro actor gradeId body subjects store now out grade hrole hfind h
    by_contra hne
    unfold updateGrade at h
    rw [if_neg (not_not_intro (authorizeRoles_teacher hrole)), hfind] at h
    dsimp only at h
    rw [updateGradePerm_teacher_ne actor grade subjects hrole hne] at h
    cases h

/-- Witness for the amended C8: the unassigned teacher is rejected on the
single-create endpoint for the same subject the bulk route accepted. -/
theorem teacher_write_guard_witness :
    createOrUpdateGrade ⟨5, .teacher, 1⟩ wBody [wSubject] [wStudent] [] 0 =
      .error (.forbidden "You are not assigned to this subject") :=
  teacher_write_guard.1 ⟨5, .teacher, 1⟩ wBody [wSubject] [wStudent] [] 0 wSubject rfl
    (by refine ⟨by norm_num [wBody], by norm_num [wBody], ?_⟩; simp [wBody])
    rfl (by decide)

/-- Counterexample to C6: an HOD of department 1 queries the CGPA of a
student whose (only) grade is for a subject of department 2, and the
request is served, not denied: the CGPA endpoint's permission check only
constrains student actors. -/
theorem hod_scope_counterexample :
    wSubjectD2.department = 2 ∧ (2 : Nat) ≠ 1 ∧
    getStudentCGPA ⟨9, .hod, 1⟩ 2 ⟨none, none⟩ [wSubjectD2] [wPub] =
      .ok (computeCGPA (sortBySemester [⟨wPub, wSubjectD2⟩])) :=
  ⟨rfl, by decide, rfl⟩

/-- C6 (amended): HOD requests are confined to the HOD's department on the
single-grade read, the grade listing's role pre-filter (when no subject
query parameter overrides it), grade creation, the direct grade update,
grade deletion, and the subject-statistics analytics endpoint; the CGPA
endpoint, however, applies no department check to non-student actors, so an
HOD can query any student's CGPA. -/
theorem hod_department_scope :
    (∀ actor gradeId subjects store grade subject,
      actor.role = .hod →
      store.find? (fun g => g.id == gradeId) = some grade →
      subjects.find? (fun s => s.id == grade.subject) = some subject →
      subject.department ≠ actor.department →
      getGradeById actor gradeId subjects store = .error (.forbidden "Access denied")) ∧
    (∀ actor q subjects store,
      actor.role = .hod → q.subject = none →
      ∀ g ∈ listGrades actor q subjects store,
        ∃ s ∈ subjects, s.id = g.subject ∧ s.department = actor.department) ∧
    (∀ actor body subjects users store freshId subjectDoc,
      actor.role = .hod →
      (1 ≤ body.semester ∧ body.semester ≤ 8 ∧ body.academicYear ≠ "") →
      subjects.find? (fun s => s.id == body.subject) = some subjectDoc →
      subjectDoc.department ≠ actor.department →
      createOrUpdateGrade actor body subjects users store freshId =
        .error (.forbidden "Subject not in your department")) ∧
    (∀ actor gradeId body subjects store now grade subject,
      actor.role = .hod →
      store.find? (fun g => g.id == gradeId) = some grade →
      subjects.find? (fun s => s.id == grade.subject) = some subject →
      subject.department ≠ actor.department →
      updateGrade actor gradeId body subjects store now =
        .error (.forbidden "Access denied")) ∧
    (∀ actor gradeId subjects store grade subject,
      actor.role = .hod →
      store.find? (fun g => g.id == gradeId) = some grade →
      subjects.find? (fun s => s.id == grade.subject) = some subject →
      subject.department ≠ actor.department →
      deleteGrade actor gradeId subjects store = .error (.forbidden "Access denied")) ∧
    (∀ actor subjectId subjects subject,
      actor.role = .hod →
      subjects.find? (fun s => s.id == subjectId) = some subject →
      subject.department ≠ actor.department →
      subjectStatsPerm actor subjectId subjects = .error (.forbidden "Access denied")) ∧
    (∀ actor studentId q subjects store,
      actor.role ≠ .student →
      getStudentCGPA actor studentId q subjects store ≠
        .error (.forbidden "Access denied")) := by
  have hauth : ∀ actor : Actor, actor.role = .hod →
      authorizeRoles [Role.admin, Role.hod, Role.teacher] actor = true := by
    intro actor h; simp [authorizeRoles, h]
  have hauth2 : ∀ actor : Actor, actor.role = .hod →
      authorizeRoles [Role.admin, Role.hod] actor = true := by
    intro actor h; simp [authorizeRoles, h]
  refine ⟨?_, ?_, ?_, ?_, ?_, ?_, ?_⟩
  · intro actor gradeId subjects store grade subject hrole hg hs hne
    unfold getGradeById
    rw [hg]
    dsimp only
    rw [if_neg (by rw [hrole]; exact fun h => Role.noConfusion h),
      if_neg (by rw [hrole]; exact fun h => Role.noConfusion h),
      if_pos hrole, hs]
    dsimp only
    rw [if_pos hne]
  · intro actor q subjects store hrole hq g hg
    obtain ⟨hmem, hmatch⟩ := List.mem_filter.1 hg
    have hsub : (buildGradesFilter actor q subjects).subject =
        SubjFilter.inList
          ((subjects.filter (fun s => s.department == actor.department)).map (fun s => s.id)) := by
      rcases q with ⟨qs, qsub, qt, qsem, qay, qet, qp⟩
      simp only at hq
      subst hq
      cases qs <;> cases qt <;> cases qsem <;> cases qay <;> cases qet <;> cases qp <;>
        simp [buildGradesFilter, hrole]
    have hholds : ((buildGradesFilter actor q subjects).subject).holds g.subject = true := by
      unfold matchesGradesFilter at hmatch
      simp only [Bool.and_eq_true] at hmatch
      exact hmatch.1.1.1.1.1.2
    rw [hsub] at hholds
    unfold SubjFilter.holds at hholds
    have hmem2 : g.subject ∈
        ((subjects.filter (fun s => s.department == actor.department)).map (fun s => s.id)) := by
      simpa using hholds
    obtain ⟨s, hsmem, hsid⟩ := List.mem_map.1 hmem2
    obtain ⟨hsmem', hsdept⟩ := List.mem_filter.1 hsmem
    refine ⟨s, hsmem', hsid, ?_⟩
    simp only [beq_iff_eq] at hsdept
    exact hsdept
  · intro actor body subjects users store freshId subjectDoc hrole hval hfind hne
    unfold createOrUpdateGrade
    rw [if_neg (not_not_intro (hauth actor hrole)), if_neg (not_not_intro hval), hfind]
    dsimp only
    rw [if_neg (by rw [hrole]; rintro ⟨h, -⟩; exact Role.noConfusion h), if_pos ⟨hrole, hne⟩]
  · intro actor gradeId body subjects store now grade subject hrole hg hs hne
    unfold updateGrade
    rw [if_neg (not_not_intro (hauth actor hrole)), hg]
    dsimp only
    have hperm : updateGradePerm actor grade subjects = some (.forbidden "Access denied") := by
      unfold updateGradePerm
      rw [if_neg (by rw [hrole]; exact fun h => Role.noConfusion h), if_pos hrole, hs]
      dsimp only
      rw [if_pos hne]
    rw [hperm]
  · intro actor gradeId subjects store grade subject hrole hg hs hne
    unfold deleteGrade
    rw [if_neg (not_not_intro (hauth2 actor hrole)), hg]
    dsimp only
    rw [if_pos hrole, hs]
    dsimp only
    rw [if_pos hne]
  · intro actor subjectId subjects subject hrole hs hne
    unfold subjectStatsPerm
    rw [if_neg (not_not_intro (hauth actor hrole)), hs]
    dsimp only
    rw [if_neg (by rw [hrole]; rintro ⟨h, -⟩; exact Role.noConfusion h), if_pos ⟨hrole, hne⟩]
  · intro actor studentId q subjects store hrole
    unfold getStudentCGPA
    rw [if_neg (by rintro ⟨h, -⟩; exact hrole h)]
    dsimp only
    split
    · intro h; simp at h
    · split
      · intro h; simp at h
      · intro h; simp at h

/-- Witness for the amended C6: the same HOD of department 1 is denied the
single-grade read of the department-2 grade the CGPA endpoint served. -/
theorem hod_department_scope_witness :
    getGradeById ⟨9, .hod, 1⟩ 5 [wSubjectD2] [wPub] =
      .error (.forbidden "Access denied") :=
  hod_department_scope.1 ⟨9, .hod, 1⟩ 5 [wSubjectD2] [wPub] wPub wSubjectD2
    rfl rfl rfl (by decide)

/-- The CGPA response's `overallGrades` is the selected row list itself. -/
theorem computeCGPA_overallGrades (gs : List PGrade) :
    (computeCGPA gs).overallGrades = gs := rfl

/-- C7: student grade access is read-scoped to the actor's own published
grades: the single fetch succeeds only on an own published grade and is
otherwise denied; the listing's query filter pins student = actor and
isPublished = true whatever the query string says; the CGPA endpoint denies
a student querying another id and only ever serves rows of the requested
student with isPublished = true. -/
theorem student_read_scope :
    (∀ actor gradeId subjects store out,
      actor.role = .student →
      getGradeById actor gradeId subjects store = .ok out →
      out.student = actor.id ∧ out.isPublished = true) ∧
    (∀ actor gradeId subjects store grade,
      actor.role = .student →
      store.find? (fun g => g.id == gradeId) = some grade →
      grade.student ≠ actor.id ∨ grade.isPublished = false →
      getGradeById actor gradeId subjects store = .error (.forbidden "Access denied")) ∧
    (∀ actor q subjects store,
      actor.role = .student →
      ∀ g ∈ listGrades actor q subjects store,
        g.student = actor.id ∧ g.isPublished = true) ∧
    (∀ actor studentId q subjects store,
      actor.role = .student → actor.id ≠ studentId →
      getStudentCGPA actor studentId q subjects store =
        .error (.forbidden "Access denied")) ∧
    (∀ actor studentId q subjects store r,
      getStudentCGPA actor studentId q subjects store = .ok r →
      ∀ p ∈ r.overallGrades, p.grade.student = studentId ∧
        p.grade.isPublished = true) := by
  refine ⟨?_, ?_, ?_, ?_, ?_⟩
  · intro actor gradeId subjects store out hrole h
    unfold getGradeById at h
    repeat' split at h
    all_goals cases h
    all_goals simp_all
  · intro actor gradeId subjects store grade hrole hfind hbad
    unfold getGradeById
    rw [hfind]
    dsimp only
    rw [if_pos hrole, if_pos hbad]
  · intro actor q subjects store hrole g hg
    obtain ⟨hmem, hmatch⟩ := List.mem_filter.1 hg
    have hsf : (buildGradesFilter actor q subjects).student = some actor.id ∧
        (buildGradesFilter actor q subjects).isPublished = some true := by
      rcases q with ⟨qs, qsub, qt, qsem, qay, qet, qp⟩
      cases qs <;> cases qsub <;> cases qt <;> cases qsem <;> cases qay <;>
        cases qet <;> cases qp <;> simp [buildGradesFilter, hrole]
    unfold matchesGradesFilter at hmatch
    simp only [Bool.and_eq_true] at hmatch
    have hstu := hmatch.1.1.1.1.1.1
    have hpub := hmatch.2
    rw [hsf.1] at hstu
    rw [hsf.2] at hpub
    exact ⟨by simpa using hstu, by simpa using hpub⟩
  · intro actor studentId q subjects store hrole hne
    unfold getStudentCGPA
    rw [if_pos ⟨hrole, hne⟩]
  · intro actor studentId q subjects store r h
    unfold getStudentCGPA at h
    dsimp only at h
    repeat' split at h
    all_goals cases h
    · intro p hp
      simp [zeroCGPAResult] at hp
    · intro p hp
      rw [computeCGPA_overallGrades] at hp
      have hp2 : p ∈ ((cgpaSelect studentId q store).map (fun g =>
          (subjects.find? (fun s => s.id == g.subject)).map
            (fun s => PGrade.mk g s))).reduceOption :=
        (List.perm_insertionSort _ _).mem_iff.1 hp
      have hp3 := List.reduceOption_mem_iff.1 hp2
      obtain ⟨g, hgmem, hgeq⟩ := List.mem_map.1 hp3
      obtain ⟨s, hsfind, hps⟩ := Option.map_eq_some'.1 hgeq
      obtain ⟨-, hcond⟩ := List.mem_filter.1 hgmem
      simp only [Bool.and_eq_true] at hcond
      rw [← hps]
      exact ⟨by simpa using hcond.1.1.1, by simpa using hcond.1.1.2⟩

/-- Witness for C7: a student querying another student's CGPA is denied. -/
theorem student_read_scope_witness :
    getStudentCGPA ⟨7, .student, 1⟩ 2 ⟨none, none⟩ [wSubject] [wPub] =
      .error (.forbidden "Access denied") :=
  student_read_scope.2.2.2.1 ⟨7, .student, 1⟩ 2 ⟨none, none⟩ [wSubject] [wPub]
    rfl (by decide)

/-- The weighted sum distributes over append. -/
theorem specWeightedPoints_append (l1 l2 : List PGrade) :
    specWeightedPoints (l1 ++ l2) = specWeightedPoints l1 + specWeightedPoints l2 := by
  simp [specWeightedPoints]

/-- The credit sum distributes over append. -/
theorem specCredits_append (l1 l2 : List PGrade) :
    specCredits (l1 ++ l2) = specCredits l1 + specCredits l2 := by
  simp [specCredits]

/-- Semester grouping distributes over append. -/
theorem semGroup_append (gs l : List PGrade) (s : Nat) :
    semGroup (gs ++ l) s = semGroup gs s ++ semGroup l s := by
  simp [semGroup]

/-- A row of another semester contributes nothing to a group. -/
theorem semGroup_singleton_ne (pg : PGrade) (s : Nat) (h : ¬ pg.grade.semester = s) :
    semGroup [pg] s = [] := by simp [semGroup, h]

/-- A row belongs to its own semester's group. -/
theorem semGroup_singleton_eq (pg : PGrade) :
    semGroup [pg] pg.grade.semester = [pg] := by simp [semGroup]

/-- A semester that never occurs has an empty group. -/
theorem semGroup_nil_of_not_mem (done : List PGrade) (s : Nat)
    (h : s ∉ done.map (fun p => p.grade.semester)) : semGroup done s = [] := by
  refine List.filter_eq_nil_iff.2 ?_
  intro p hp
  simp only [beq_iff_eq]
  intro he
  exact h (List.mem_map.2 ⟨p, hp, he⟩)

/-- The running totals of the CGPA loop, one step at a time. -/
theorem cgpaStep_totals (acc : List SemAccum × ℚ × ℚ) (pg : PGrade) :
    (cgpaStep acc pg).2.1 = acc.2.1 + pg.grade.gradePoints * pg.subject.credits ∧
    (cgpaStep acc pg).2.2 = acc.2.2 + pg.subject.credits :=
  ⟨rfl, rfl⟩

/-- The running totals of the CGPA loop equal the spec's sums. -/
theorem cgpaFold_totals (gs : List PGrade) (sd : List SemAccum) (tgp tc : ℚ) :
    (gs.foldl cgpaStep (sd, tgp, tc)).2.1 = tgp + specWeightedPoints gs ∧
    (gs.foldl cgpaStep (sd, tgp, tc)).2.2 = tc + specCredits gs := by
  induction gs generalizing sd tgp tc with
  | nil => simp [specWeightedPoints, specCredits]
  | cons pg rest ih =>
    rw [List.foldl_cons]
    have h := ih (cgpaStep (sd, tgp, tc) pg).1 (cgpaStep (sd, tgp, tc) pg).2.1
      (cgpaStep (sd, tgp, tc) pg).2.2
    constructor
    · rw [h.1, (cgpaStep_totals (sd, tgp, tc) pg).1]
      simp [specWeightedPoints]
      ring
    · rw [h.2, (cgpaStep_totals (sd, tgp, tc) pg).2]
      simp [specCredits]
      ring

/-- Appending a row of a different semester leaves a spec bucket as it was. -/
theorem mkSemAccum_append_ne (done : List PGrade) (pg : PGrade) (s : Nat)
    (h : ¬ pg.grade.semester = s) :
    mkSemAccum (done ++ [pg]) s = mkSemAccum done s := by
  unfold mkSemAccum
  rw [semGroup_append, semGroup_singleton_ne pg s h, List.append_nil]

/-- The step's semester-data update, in closed form. -/
theorem cgpaStep_semData_eq (sd : List SemAccum) (tgp tc : ℚ) (pg : PGrade) :
    (cgpaStep (sd, tgp, tc) pg).1 =
      (if sd.any (fun a => a.semester == pg.grade.semester) then sd
       else sd ++ [{ semester := pg.grade.semester, totalGradePoints := 0
                     totalCredits := 0, grades := [] }]).map
        (fun a => if a.semester == pg.grade.semester then
          { a with
              totalGradePoints := a.totalGradePoints +
                pg.grade.gradePoints * pg.subject.credits
              totalCredits := a.totalCredits + pg.subject.credits
              grades := a.grades ++ [pg] }
          else a) := rfl

/-- One CGPA-loop step preserves the semester-data invariant. -/
theorem cgpaStep_semDataInv (done : List PGrade) (sd : List SemAccum) (tgp tc : ℚ)
    (pg : PGrade) (h : semDataInv done sd) :
    semDataInv (done ++ [pg]) ((cgpaStep (sd, tgp, tc) pg).1) := by
  obtain ⟨hcount, hacc⟩ := h
  have hupdsem : ∀ a : SemAccum,
      (if a.semester == pg.grade.semester then
        { a with
            totalGradePoints := a.totalGradePoints +
              pg.grade.gradePoints * pg.subject.credits
            totalCredits := a.totalCredits + pg.subject.credits
            grades := a.grades ++ [pg] }
        else a).semester = a.semester := by
    intro a
    by_cases hc : a.semester == pg.grade.semester
    · rw [if_pos hc]
    · rw [if_neg hc]
  rw [cgpaStep_semData_eq]
  by_cases hex : sd.any (fun a => a.semester == pg.grade.semester) = true
  · -- the semester is already bucketed, hence already occurred
    have hsemdone : pg.grade.semester ∈ done.map (fun p => p.grade.semester) := by
      obtain ⟨a, ha, hae⟩ := List.any_eq_true.1 hex
      have h1 : 0 < sd.countP (fun e => e.semester == pg.grade.semester) :=
        List.countP_pos_iff.2 ⟨a, ha, hae⟩
      by_contra hmem
      rw [hcount pg.grade.semester, if_neg hmem] at h1
      exact lt_irrefl 0 h1
    rw [if_pos hex]
    constructor
    · intro s
      rw [List.countP_map]
      have hcong : ∀ a ∈ sd,
          (((fun e : SemAccum => e.semester == s) ∘ fun a =>
            if a.semester == pg.grade.semester then
              { a with
                  totalGradePoints := a.totalGradePoints +
                    pg.grade.gradePoints * pg.subject.credits
                  totalCredits := a.totalCredits + pg.subject.credits
                  grades := a.grades ++ [pg] }
              else a) a = true ↔ (fun e : SemAccum => e.semester == s) a = true) := by
        intro a _
        simp only [Function.comp_apply, hupdsem]
      rw [List.countP_congr hcong, hcount s]
      have hiff : (s ∈ (done ++ [pg]).map (fun p => p.grade.semester)) ↔
          (s ∈ done.map (fun p => p.grade.semester)) := by
        simp only [List.map_append, List.mem_append, List.map_cons, List.map_nil,
          List.mem_singleton]
        constructor
        · rintro (h1 | rfl)
          · exact h1
          · exact hsemdone
        · exact Or.inl
      rw [if_congr hiff rfl rfl]
    · intro e he
      obtain ⟨a, ha, hae⟩ := List.mem_map.1 he
      have ha' := hacc a ha
      by_cases hc : a.semester == pg.grade.semester
      · have haeq : a.semester = pg.grade.semester := by simpa using hc
        have h1 : a.totalGradePoints = specWeightedPoints (semGroup done a.semester) :=
          congrArg SemAccum.totalGradePoints ha'
        have h2 : a.totalCredits = specCredits (semGroup done a.semester) :=
          congrArg SemAccum.totalCredits ha'
        have h3 : a.grades = semGroup done a.semester :=
          congrArg SemAccum.grades ha'
        rw [if_pos hc] at hae
        rw [← hae]
        show _ = mkSemAccum (done ++ [pg]) a.semester
        have hsg : semGroup (done ++ [pg]) a.semester = semGroup done a.semester ++ [pg] := by
          rw [semGroup_append, haeq, semGroup_singleton_eq]
        refine SemAccum.ext rfl ?_ ?_ ?_
        · show a.totalGradePoints + pg.grade.gradePoints * pg.subject.credits =
            specWeightedPoints (semGroup (done ++ [pg]) a.semester)
          rw [hsg, specWeightedPoints_append, h1]
          simp [specWeightedPoints]
        · show a.totalCredits + pg.subject.credits =
            specCredits (semGroup (done ++ [pg]) a.semester)
          rw [hsg, specCredits_append, h2]
          simp [specCredits]
        · show a.grades ++ [pg] = semGroup (done ++ [pg]) a.semester
          rw [hsg, h3]
      · rw [if_neg hc] at hae
        subst hae
        have hne : ¬ pg.grade.semester = a.semester := fun heq => hc (by simp [heq])
        rw [mkSemAccum_append_ne done pg a.semester hne]
        exact ha'
  · -- first occurrence of the semester: a fresh bucket is appended
    have hnot : pg.grade.semester ∉ done.map (fun p => p.grade.semester) := by
      intro hmem
      have h1 := hcount pg.grade.semester
      rw [if_pos hmem] at h1
      have h2 : 0 < sd.countP (fun e => e.semester == pg.grade.semester) := by omega
      obtain ⟨a, ha, hae⟩ := List.countP_pos_iff.1 h2
      exact hex (List.any_eq_true.2 ⟨a, ha, hae⟩)
    have hnone : ∀ a ∈ sd, ¬ (a.semester == pg.grade.semester) = true := by
      intro a ha hae
      exact hex (List.any_eq_true.2 ⟨a, ha, hae⟩)
    rw [if_neg hex, List.map_append]
    constructor
    · intro s
      rw [List.countP_append, List.countP_map, List.countP_map]
      have hcong : ∀ a ∈ sd,
          (((fun e : SemAccum => e.semester == s) ∘ fun a =>
            if a.semester == pg.grade.semester then
              { a with
                  totalGradePoints := a.totalGradePoints +
                    pg.grade.gradePoints * pg.subject.credits
                  totalCredits := a.totalCredits + pg.subject.credits
                  grades := a.grades ++ [pg] }
              else a) a = true ↔ (fun e : SemAccum => e.semester == s) a = true) := by
        intro a _
        simp only [Function.comp_apply, hupdsem]
      rw [List.countP_congr hcong, hcount s]
      simp only [List.countP_cons, List.countP_nil, Function.comp_apply, hupdsem]
      simp only [List.map_append, List.mem_append, List.map_cons, List.map_nil,
        List.mem_singleton]
      by_cases hs : s = pg.grade.semester
      · subst hs
        rw [if_neg hnot]
        simp [hnot]
      · have : ¬ (pg.grade.semester == s) = true := by simpa using fun h => hs h.symm
        by_cases hmem : s ∈ done.map (fun p => p.grade.semester) <;>
          simp [hmem, hs, this]
    · intro e he
      rcases List.mem_append.1 he with h1 | h1
      · obtain ⟨a, ha, hae⟩ := List.mem_map.1 h1
        have ha' := hacc a ha
        rw [if_neg (hnone a ha)] at hae
        subst hae
        have hne : ¬ pg.grade.semester = a.semester := fun heq => hnone a ha (by simp [heq])
        rw [mkSemAccum_append_ne done pg a.semester hne]
        exact ha'
      · simp only [List.map_cons, List.map_nil, List.mem_singleton] at h1
        rw [h1]
        have hself : (({ semester := pg.grade.semester, totalGradePoints := 0, totalCredits := 0, grades := [] } : SemAccum).semester == pg.grade.semester) = true := by simp
        rw [if_pos hself]
        show _ = mkSemAccum (done ++ [pg]) pg.grade.semester
        have hsg : semGroup (done ++ [pg]) pg.grade.semester = [pg] := by
          rw [semGroup_append, semGroup_singleton_eq,
            semGroup_nil_of_not_mem done _ hnot, List.nil_append]
        refine SemAccum.ext rfl ?_ ?_ ?_
        · show 0 + pg.grade.gradePoints * pg.subject.credits =
            specWeightedPoints (semGroup (done ++ [pg]) pg.grade.semester)
          rw [hsg]
          simp [specWeightedPoints]
        · show 0 + pg.subject.credits =
            specCredits (semGroup (done ++ [pg]) pg.grade.semester)
          rw [hsg]
          simp [specCredits]
        · show [] ++ [pg] = semGroup (done ++ [pg]) pg.grade.semester
          rw [hsg, List.nil_append]

/-- The CGPA loop maintains the semester-data invariant. -/
theorem cgpaFold_semDataInv (gs : List PGrade) :
    ∀ (done : List PGrade) (sd : List SemAccum) (tgp tc : ℚ),
      semDataInv done sd →
      semDataInv (done ++ gs) ((gs.foldl cgpaStep (sd, tgp, tc)).1) := by
  induction gs with
  | nil => intro done sd tgp tc h; simpa using h
  | cons pg rest ih =>
    intro done sd tgp tc h
    rw [List.foldl_cons]
    have h1 := cgpaStep_semDataInv done sd tgp tc pg h
    have h2 := ih (done ++ [pg]) (cgpaStep (sd, tgp, tc) pg).1
      (cgpaStep (sd, tgp, tc) pg).2.1 (cgpaStep (sd, tgp, tc) pg).2.2 h1
    simpa using h2

/-- The invariant holds for the empty prefix. -/
theorem semDataInv_nil : semDataInv [] [] := by
  constructor
  · intro s; simp
  · intro e he; simp at he

/-- C1: the CGPA result groups the selected rows by semester (one bucket
per distinct semester holding exactly that semester's rows), each bucket's
sgpa is that semester's credit-weighted average rounded to 2 decimals, and
the overall cgpa is the credit-weighted average over all selected rows,
rounded once at the end — computed from the unrounded per-grade totals, and
(as the concrete two-semester example shows) different from the mean of the
rounded per-semester SGPA values. -/
theorem cgpa_credit_weighted (gs : List PGrade) :
    (computeCGPA gs).cgpa =
      (if 0 < specCredits gs then
        round2 (specWeightedPoints gs / specCredits gs) else 0) ∧
    (0 < specCredits gs →
      (computeCGPA gs).cgpa = round2 (specWeightedPoints gs / specCredits gs)) ∧
    (computeCGPA gs).totalCredits = specCredits gs ∧
    (computeCGPA gs).gradesCount = gs.length ∧
    (computeCGPA gs).overallGrades = gs ∧
    (∀ s : Nat, (computeCGPA gs).semesterWise.countP (fun e => e.semester == s) =
      if s ∈ gs.map (fun p => p.grade.semester) then 1 else 0) ∧
    (∀ e ∈ (computeCGPA gs).semesterWise,
      e.grades = semGroup gs e.semester ∧
      e.totalGradePoints = specWeightedPoints (semGroup gs e.semester) ∧
      e.totalCredits = specCredits (semGroup gs e.semester) ∧
      e.sgpa = (if 0 < specCredits (semGroup gs e.semester) then
        round2 (specWeightedPoints (semGroup gs e.semester) /
          specCredits (semGroup gs e.semester)) else 0)) ∧
    ((computeCGPA exTwoSems).cgpa = 8 ∧
      (computeCGPA exTwoSems).semesterWise.map (fun e => e.sgpa) = [10, 4] ∧
      (computeCGPA exTwoSems).cgpa ≠
        ((computeCGPA exTwoSems).semesterWise.map (fun e => e.sgpa)).sum / 2) := by
  have ht := cgpaFold_totals gs [] 0 0
  have hinv : semDataInv gs ((gs.foldl cgpaStep ([], 0, 0)).1) :=
    cgpaFold_semDataInv gs [] [] 0 0 semDataInv_nil
  have hcgpa : (computeCGPA gs).cgpa =
      (if 0 < specCredits gs then
        round2 (specWeightedPoints gs / specCredits gs) else 0) := by
    show (if (gs.foldl cgpaStep ([], 0, 0)).2.2 > 0 then
        round2 ((gs.foldl cgpaStep ([], 0, 0)).2.1 / (gs.foldl cgpaStep ([], 0, 0)).2.2)
      else 0) = _
    rw [ht.1, ht.2, zero_add, zero_add]
  refine ⟨hcgpa, ?_, ?_, rfl, rfl, ?_, ?_, ?_, ?_, ?_⟩
  · intro hpos
    rw [hcgpa, if_pos hpos]
  · show (gs.foldl cgpaStep ([], 0, 0)).2.2 = specCredits gs
    rw [ht.2, zero_add]
  · intro s
    show ((objectValuesBySemester ((gs.foldl cgpaStep ([], 0, 0)).1)).map _).countP _ = _
    rw [List.countP_map]
    have hcong : ∀ a ∈ objectValuesBySemester ((gs.foldl cgpaStep ([], 0, 0)).1),
        (((fun e : SemesterEntry => e.semester == s) ∘ fun a : SemAccum =>
          ({ semester := a.semester, totalGradePoints := a.totalGradePoints
             totalCredits := a.totalCredits, grades := a.grades
             sgpa := if a.totalCredits > 0 then
               round2 (a.totalGradePoints / a.totalCredits) else 0 } : SemesterEntry)) a = true ↔
          (fun a : SemAccum => a.semester == s) a = true) := by
      intro a _
      exact Iff.rfl
    rw [List.countP_congr hcong]
    unfold objectValuesBySemester
    rw [List.Perm.countP_eq _ (List.perm_insertionSort _ _)]
    exact hinv.1 s
  · intro e he
    obtain ⟨a, hasorted, hae⟩ := List.mem_map.1 he
    have hamem : a ∈ (gs.foldl cgpaStep ([], 0, 0)).1 :=
      (List.perm_insertionSort _ _).mem_iff.1 hasorted
    have ha' := hinv.2 a hamem
    have h1 : a.totalGradePoints = specWeightedPoints (semGroup gs a.semester) :=
      congrArg SemAccum.totalGradePoints ha'
    have h2 : a.totalCredits = specCredits (semGroup gs a.semester) :=
      congrArg SemAccum.totalCredits ha'
    have h3 : a.grades = semGroup gs a.semester :=
      congrArg SemAccum.grades ha'
    rw [← hae]
    refine ⟨?_, ?_, ?_, ?_⟩
    · show a.grades = semGroup gs a.semester
      exact h3
    · show a.totalGradePoints = specWeightedPoints (semGroup gs a.semester)
      exact h1
    · show a.totalCredits = specCredits (semGroup gs a.semester)
      exact h2
    · show (if a.totalCredits > 0 then round2 (a.totalGradePoints / a.totalCredits) else 0) =
        (if 0 < specCredits (semGroup gs a.semester) then
          round2 (specWeightedPoints (semGroup gs a.semester) /
            specCredits (semGroup gs a.semester)) else 0)
      rw [h1, h2]
  · norm_num [computeCGPA, cgpaStep, objectValuesBySemester, List.insertionSort,
      exTwoSems, exG1, exG2, exS1, exS2, round2]
  · norm_num [computeCGPA, cgpaStep, objectValuesBySemester, List.insertionSort,
      List.orderedInsert, exTwoSems, exG1, exG2, exS1, exS2, round2]
  · norm_num [computeCGPA, cgpaStep, objectValuesBySemester, List.insertionSort,
      List.orderedInsert, exTwoSems, exG1, exG2, exS1, exS2, round2]

/-- Witness for C1: on the two-semester example (total credits 6 > 0) the
overall cgpa is the credit-weighted average, rounded. -/
theorem cgpa_credit_weighted_witness :
    (computeCGPA exTwoSems).cgpa =
      round2 (specWeightedPoints exTwoSems / specCredits exTwoSems) :=
  (cgpa_credit_weighted exTwoSems).2.1
    (by norm_num [specCredits, exTwoSems, exS1, exS2])

/-- C4: the aggregation is total and guarded: the CGPA endpoint returns the
zero-valued payload (never an error) when no published grade matches, and a
zero credit total yields cgpa 0 and sgpa 0 instead of a division error. -/
theorem computeCGPA_total_and_guarded :
    (∀ actor studentId q subjects store,
      ¬(actor.role = .student ∧ actor.id ≠ studentId) →
      cgpaSelect studentId q store = [] →
      getStudentCGPA actor studentId q subjects store = .ok zeroCGPAResult) ∧
    (zeroCGPAResult.cgpa = 0 ∧ zeroCGPAResult.totalCredits = 0 ∧
      zeroCGPAResult.gradesCount = 0 ∧ zeroCGPAResult.semesterWise = [] ∧
      zeroCGPAResult.overallGrades = []) ∧
    (∀ gs : List PGrade,
      ¬ 0 < (computeCGPA gs).totalCredits → (computeCGPA gs).cgpa = 0) ∧
    (∀ gs : List PGrade, ∀ e ∈ (computeCGPA gs).semesterWise,
      ¬ 0 < e.totalCredits → e.sgpa = 0) := by
  refine ⟨?_, ⟨rfl, rfl, rfl, rfl, rfl⟩, ?_, ?_⟩
  · intro actor studentId q subjects store hperm hempty
    unfold getStudentCGPA
    rw [if_neg hperm]
    dsimp only
    rw [hempty]
    rfl
  · intro gs h
    have h' : ¬ (gs.foldl cgpaStep ([], 0, 0)).2.2 > 0 := h
    show (if (gs.foldl cgpaStep ([], 0, 0)).2.2 > 0 then
        round2 ((gs.foldl cgpaStep ([], 0, 0)).2.1 / (gs.foldl cgpaStep ([], 0, 0)).2.2)
      else 0) = 0
    rw [if_neg h']
  · intro gs e he h
    obtain ⟨a, _, hae⟩ := List.mem_map.1 he
    rw [← hae] at h ⊢
    have h' : ¬ a.totalCredits > 0 := h
    show (if a.totalCredits > 0 then round2 (a.totalGradePoints / a.totalCredits) else 0) = 0
    rw [if_neg h']

/-- Witness for C4: a concrete empty selection (student 999 has no grades)
returns the zero-valued payload. -/
theorem computeCGPA_total_and_guarded_witness :
    getStudentCGPA wActor 999 ⟨none, none⟩ [wSubject] [wPub] = .ok zeroCGPAResult :=
  computeCGPA_total_and_guarded.1 wActor 999 ⟨none, none⟩ [wSubject] [wPub]
    (by decide) rfl

/-- Splitting the bulk loop at a list boundary. -/
theorem bulkLoop_append {α β ι : Type} (body : α × Nat → ι → (α × Nat × β) ⊕ String)
    (l1 l2 : List ι) :
    ∀ (i : Nat) (st : BulkState α β),
    bulkLoop body (l1 ++ l2) i st = bulkLoop body l2 (i + l1.length) (bulkLoop body l1 i st) := by
  induction l1 with
  | nil => intro i st; simp [bulkLoop]
  | cons x rest ih =>
    intro i st
    rw [List.cons_append, bulkLoop, bulkLoop, ih]
    have he : i + 1 + rest.length = i + (x :: rest).length := by
      simp [List.length_cons]; omega
    rw [he]

/-- One bulk step relative to the same step started with empty results. -/
theorem bulkStep_proj {α β ι : Type} (body : α × Nat → ι → (α × Nat × β) ⊕ String)
    (st : BulkState α β) (i : Nat) (x : ι) :
    (bulkStep body st i x).1 = (bulkStep body (st.1, st.2.1, [], []) i x).1 ∧
    (bulkStep body st i x).2.1 = (bulkStep body (st.1, st.2.1, [], []) i x).2.1 ∧
    (bulkStep body st i x).2.2.1 =
      st.2.2.1 ++ (bulkStep body (st.1, st.2.1, [], []) i x).2.2.1 ∧
    (bulkStep body st i x).2.2.2 =
      st.2.2.2 ++ (bulkStep body (st.1, st.2.1, [], []) i x).2.2.2 := by
  unfold bulkStep
  dsimp only
  cases body (st.1, st.2.1) x with
  | inl y =>
    obtain ⟨a', n', b⟩ := y
    exact ⟨rfl, rfl, by simp, by simp⟩
  | inr msg =>
    exact ⟨rfl, rfl, by simp, by simp⟩

/-- The bulk loop relative to the same loop started with empty results: the
store and counter are unaffected and the results only accumulate. -/
theorem bulkLoop_proj {α β ι : Type} (body : α × Nat → ι → (α × Nat × β) ⊕ String)
    (items : List ι) :
    ∀ (i : Nat) (st : BulkState α β),
    (bulkLoop body items i st).1 = (bulkLoop body items i (st.1, st.2.1, [], [])).1 ∧
    (bulkLoop body items i st).2.1 = (bulkLoop body items i (st.1, st.2.1, [], [])).2.1 ∧
    (bulkLoop body items i st).2.2.1 =
      st.2.2.1 ++ (bulkLoop body items i (st.1, st.2.1, [], [])).2.2.1 ∧
    (bulkLoop body items i st).2.2.2 =
      st.2.2.2 ++ (bulkLoop body items i (st.1, st.2.1, [], [])).2.2.2 := by
  induction items with
  | nil =>
    intro i st
    exact ⟨rfl, rfl, by simp [bulkLoop], by simp [bulkLoop]⟩
  | cons x rest ih =>
    intro i st
    rw [bulkLoop, bulkLoop]
    have hs := bulkStep_proj body st i x
    have h1 := ih (i + 1) (bulkStep body st i x)
    have h2 := ih (i + 1) (bulkStep body (st.1, st.2.1, [], []) i x)
    have hbase : ((bulkStep body st i x).1, (bulkStep body st i x).2.1,
        ([] : List (Nat × β)), ([] : List (Nat × String))) =
        ((bulkStep body (st.1, st.2.1, [], []) i x).1,
         (bulkStep body (st.1, st.2.1, [], []) i x).2.1, [], []) := by
      rw [hs.1, hs.2.1]
    refine ⟨?_, ?_, ?_, ?_⟩
    · rw [h1.1, hbase, ← h2.1]
    · rw [h1.2.1, hbase, ← h2.2.1]
    · rw [h1.2.2.1, hs.2.2.1, hbase, h2.2.2.1, List.append_assoc]
    · rw [h1.2.2.2, hs.2.2.2, hbase, h2.2.2.2, List.append_assoc]

/-- Starting the bulk loop at a different row offset changes only the
reported row numbers, never the store, the counter, or the payloads. -/
theorem bulkLoop_shift {α β ι : Type} (body : α × Nat → ι → (α × Nat × β) ⊕ String)
    (items : List ι) :
    ∀ (i j : Nat) (a : α) (n : Nat),
    (bulkLoop body items i (a, n, [], [])).1 = (bulkLoop body items j (a, n, [], [])).1 ∧
    (bulkLoop body items i (a, n, [], [])).2.1 =
      (bulkLoop body items j (a, n, [], [])).2.1 ∧
    (bulkLoop body items i (a, n, [], [])).2.2.1.map Prod.snd =
      (bulkLoop body items j (a, n, [], [])).2.2.1.map Prod.snd ∧
    (bulkLoop body items i (a, n, [], [])).2.2.2.map Prod.snd =
      (bulkLoop body items j (a, n, [], [])).2.2.2.map Prod.snd := by
  induction items with
  | nil => intro i j a n; exact ⟨rfl, rfl, rfl, rfl⟩
  | cons x rest ih =>
    intro i j a n
    rw [bulkLoop, bulkLoop]
    unfold bulkStep
    dsimp only
    cases hb : body (a, n) x with
    | inl y =>
      obtain ⟨a', n', b⟩ := y
      dsimp only
      simp only [List.nil_append]
      have hi := bulkLoop_proj body rest (i + 1) (a', n', [(i + 1, b)], [])
      have hj := bulkLoop_proj body rest (j + 1) (a', n', [(j + 1, b)], [])
      have hsh := ih (i + 1) (j + 1) a' n'
      refine ⟨?_, ?_, ?_, ?_⟩
      · exact hi.1.trans (hsh.1.trans hj.1.symm)
      · exact hi.2.1.trans (hsh.2.1.trans hj.2.1.symm)
      · rw [hi.2.2.1, hj.2.2.1]
        simp only [List.map_append]
        rw [show ((bulkLoop body rest (i + 1)
            (((a', n', [(i + 1, b)], []) : BulkState α β).1,
             ((a', n', [(i + 1, b)], []) : BulkState α β).2.1, [], [])).2.2.1.map Prod.snd) =
            ((bulkLoop body rest (j + 1) (a', n', [], [])).2.2.1.map Prod.snd) from hsh.2.2.1]
        simp
      · rw [hi.2.2.2, hj.2.2.2]
        simp only [List.map_append]
        rw [show ((bulkLoop body rest (i + 1)
            (((a', n', [(i + 1, b)], []) : BulkState α β).1,
             ((a', n', [(i + 1, b)], []) : BulkState α β).2.1, [], [])).2.2.2.map Prod.snd) =
            ((bulkLoop body rest (j + 1) (a', n', [], [])).2.2.2.map Prod.snd) from hsh.2.2.2]
    | inr msg =>
      dsimp only
      simp only [List.nil_append]
      have hi := bulkLoop_proj body rest (i + 1) (a, n, [], [(i + 1, msg)])
      have hj := bulkLoop_proj body rest (j + 1) (a, n, [], [(j + 1, msg)])
      have hsh := ih (i + 1) (j + 1) a n
      refine ⟨?_, ?_, ?_, ?_⟩
      · exact hi.1.trans (hsh.1.trans hj.1.symm)
      · exact hi.2.1.trans (hsh.2.1.trans hj.2.1.symm)
      · rw [hi.2.2.1, hj.2.2.1]
        simp only [List.map_append]
        rw [show ((bulkLoop body rest (i + 1)
            (((a, n, [], [(i + 1, msg)]) : BulkState α β).1,
             ((a, n, [], [(i + 1, msg)]) : BulkState α β).2.1, [], [])).2.2.1.map Prod.snd) =
            ((bulkLoop body rest (j + 1) (a, n, [], [])).2.2.1.map Prod.snd) from hsh.2.2.1]
      · rw [hi.2.2.2, hj.2.2.2]
        simp only [List.map_append]
        rw [show ((bulkLoop body rest (i + 1)
            (((a, n, [], [(i + 1, msg)]) : BulkState α β).1,
             ((a, n, [], [(i + 1, msg)]) : BulkState α β).2.1, [], [])).2.2.2.map Prod.snd) =
            ((bulkLoop body rest (j + 1) (a, n, [], [])).2.2.2.map Prod.snd) from hsh.2.2.2]
        simp

/-- Every row of the batch produces exactly one outcome. -/
theorem bulkLoop_count {α β ι : Type} (body : α × Nat → ι → (α × Nat × β) ⊕ String)
    (items : List ι) :
    ∀ (i : Nat) (st : BulkState α β),
    (bulkLoop body items i st).2.2.1.length + (bulkLoop body items i st).2.2.2.length =
      st.2.2.1.length + st.2.2.2.length + items.length := by
  induction items with
  | nil => intro i st; simp [bulkLoop]
  | cons x rest ih =>
    intro i st
    rw [bulkLoop, ih (i + 1) (bulkStep body st i x)]
    unfold bulkStep
    cases hb : body (st.1, st.2.1) x with
    | inl y =>
      obtain ⟨a', n', b⟩ := y
      dsimp only
      simp only [List.length_append, List.length_cons, List.length_nil]
      omega
    | inr msg =>
      dsimp only
      simp only [List.length_append, List.length_cons, List.length_nil]
      omega

/-- The generic isolation property: when the item between `pre` and `post`
fails, the final store and counter are the same as if that item were
absent, its failure is reported with its 1-based row and reason, and the
other rows' success payloads are unchanged. -/
theorem bulkLoop_isolation {α β ι : Type} (body : α × Nat → ι → (α × Nat × β) ⊕ String)
    (pre post : List ι) (bad : ι) (a : α) (n : Nat) (msg : String)
    (hbad : body ((bulkLoop body pre 0 (a, n, [], [])).1,
      (bulkLoop body pre 0 (a, n, [], [])).2.1) bad = Sum.inr msg) :
    (bulkLoop body (pre ++ bad :: post) 0 (a, n, [], [])).1 =
      (bulkLoop body (pre ++ post) 0 (a, n, [], [])).1 ∧
    (bulkLoop body (pre ++ bad :: post) 0 (a, n, [], [])).2.1 =
      (bulkLoop body (pre ++ post) 0 (a, n, [], [])).2.1 ∧
    (pre.length + 1, msg) ∈ (bulkLoop body (pre ++ bad :: post) 0 (a, n, [], [])).2.2.2 ∧
    (bulkLoop body (pre ++ bad :: post) 0 (a, n, [], [])).2.2.1.map Prod.snd =
      (bulkLoop body (pre ++ post) 0 (a, n, [], [])).2.2.1.map Prod.snd := by
  rw [bulkLoop_append body pre (bad :: post) 0 (a, n, [], []),
    bulkLoop_append body pre post 0 (a, n, [], []), Nat.zero_add, bulkLoop]
  have hstep : bulkStep body (bulkLoop body pre 0 (a, n, [], [])) pre.length bad =
      ((bulkLoop body pre 0 (a, n, [], [])).1,
       (bulkLoop body pre 0 (a, n, [], [])).2.1,
       (bulkLoop body pre 0 (a, n, [], [])).2.2.1,
       (bulkLoop body pre 0 (a, n, [], [])).2.2.2 ++ [(pre.length + 1, msg)]) := by
    unfold bulkStep
    rw [hbad]
  rw [hstep]
  have hfull := bulkLoop_proj body post (pre.length + 1)
    ((bulkLoop body pre 0 (a, n, [], [])).1,
     (bulkLoop body pre 0 (a, n, [], [])).2.1,
     (bulkLoop body pre 0 (a, n, [], [])).2.2.1,
     (bulkLoop body pre 0 (a, n, [], [])).2.2.2 ++ [(pre.length + 1, msg)])
  have halt := bulkLoop_proj body post pre.length (bulkLoop body pre 0 (a, n, [], []))
  have hsh := bulkLoop_shift body post (pre.length + 1) pre.length
    (bulkLoop body pre 0 (a, n, [], [])).1 (bulkLoop body pre 0 (a, n, [], [])).2.1
  refine ⟨?_, ?_, ?_, ?_⟩
  · exact hfull.1.trans (hsh.1.trans halt.1.symm)
  · exact hfull.2.1.trans (hsh.2.1.trans halt.2.1.symm)
  · rw [hfull.2.2.2]
    exact List.mem_append_left _ (List.mem_append_right _ (List.mem_singleton_self _))
  · rw [hfull.2.2.1, halt.2.2.1]
    simp only [List.map_append]
    rw [show ((bulkLoop body post (pre.length + 1)
        (((bulkLoop body pre 0 (a, n, [], [])).1,
          (bulkLoop body pre 0 (a, n, [], [])).2.1,
          (bulkLoop body pre 0 (a, n, [], [])).2.2.1,
          (bulkLoop body pre 0 (a, n, [], [])).2.2.2 ++ [(pre.length + 1, msg)]).1,
         ((bulkLoop body pre 0 (a, n, [], [])).1,
          (bulkLoop body pre 0 (a, n, [], [])).2.1,
          (bulkLoop body pre 0 (a, n, [], [])).2.2.1,
          (bulkLoop body pre 0 (a, n, [], [])).2.2.2 ++ [(pre.length + 1, msg)]).2.1,
         [], [])).2.2.1.map Prod.snd) =
        ((bulkLoop body post pre.length
          ((bulkLoop body pre 0 (a, n, [], [])).1,
           (bulkLoop body pre 0 (a, n, [], [])).2.1, [], [])).2.2.1.map Prod.snd)
        from hsh.2.2.1]

/-- C9: in every bulk-create route (grades, subjects, users), an item that
fails at its position aborts and rolls back nothing: the final store (and
fresh-id counter path) is exactly as if the failing item were absent, its
failure is reported individually with its 1-based row index and a reason,
the other rows' success payloads are unchanged, and every row of the batch
gets exactly one outcome. -/
theorem bulk_item_isolation :
    (∀ actor (pre post : List BulkGradeItem) bad store nextId msg,
      gradeItemBody actor ((bulkCreateGrades actor pre store nextId).1,
        (bulkCreateGrades actor pre store nextId).2.1) bad = .inr msg →
      (bulkCreateGrades actor (pre ++ bad :: post) store nextId).1 =
        (bulkCreateGrades actor (pre ++ post) store nextId).1 ∧
      (pre.length + 1, msg) ∈
        (bulkCreateGrades actor (pre ++ bad :: post) store nextId).2.2.2 ∧
      (bulkCreateGrades actor (pre ++ bad :: post) store nextId).2.2.1.map Prod.snd =
        (bulkCreateGrades actor (pre ++ post) store nextId).2.2.1.map Prod.snd) ∧
    (∀ actor items store nextId,
      (bulkCreateGrades actor items store nextId).2.2.1.length +
        (bulkCreateGrades actor items store nextId).2.2.2.length = items.length) ∧
    (∀ actor (pre post : List SubjectItem) bad store nextId msg,
      subjectItemBody actor ((bulkCreateSubjects actor pre store nextId).1,
        (bulkCreateSubjects actor pre store nextId).2.1) bad = .inr msg →
      (bulkCreateSubjects actor (pre ++ bad :: post) store nextId).1 =
        (bulkCreateSubjects actor (pre ++ post) store nextId).1 ∧
      (pre.length + 1, msg) ∈
        (bulkCreateSubjects actor (pre ++ bad :: post) store nextId).2.2.2 ∧
      (bulkCreateSubjects actor (pre ++ bad :: post) store nextId).2.2.1.map Prod.snd =
        (bulkCreateSubjects actor (pre ++ post) store nextId).2.2.1.map Prod.snd) ∧
    (∀ actor items store nextId,
      (bulkCreateSubjects actor items store nextId).2.2.1.length +
        (bulkCreateSubjects actor items store nextId).2.2.2.length = items.length) ∧
    (∀ (pre post : List UserItem) bad store nextId msg,
      userItemBody ((bulkCreateUsers pre store nextId).1,
        (bulkCreateUsers pre store nextId).2.1) bad = .inr msg →
      (bulkCreateUsers (pre ++ bad :: post) store nextId).1 =
        (bulkCreateUsers (pre ++ post) store nextId).1 ∧
      (pre.length + 1, msg) ∈ (bulkCreateUsers (pre ++ bad :: post) store nextId).2.2.2 ∧
      (bulkCreateUsers (pre ++ bad :: post) store nextId).2.2.1.map Prod.snd =
        (bulkCreateUsers (pre ++ post) store nextId).2.2.1.map Prod.snd) ∧
    (∀ items store nextId,
      (bulkCreateUsers items store nextId).2.2.1.length +
        (bulkCreateUsers items store nextId).2.2.2.length = items.length) := by
  refine ⟨?_, ?_, ?_, ?_, ?_, ?_⟩
  · intro actor pre post bad store nextId msg hbad
    have h := bulkLoop_isolation (gradeItemBody actor) pre post bad store nextId msg hbad
    exact ⟨h.1, h.2.2.1, h.2.2.2⟩
  · intro actor items store nextId
    have h := bulkLoop_count (gradeItemBody actor) items 0 (store, nextId, [], [])
    simpa using h
  · intro actor pre post bad store nextId msg hbad
    have h := bulkLoop_isolation (subjectItemBody actor) pre post bad store nextId msg hbad
    exact ⟨h.1, h.2.2.1, h.2.2.2⟩
  · intro actor items store nextId
    have h := bulkLoop_count (subjectItemBody actor) items 0 (store, nextId, [], [])
    simpa using h
  · intro pre post bad store nextId msg hbad
    have h := bulkLoop_isolation userItemBody pre post bad store nextId msg hbad
    exact ⟨h.1, h.2.2.1, h.2.2.2⟩
  · intro items store nextId
    have h := bulkLoop_count userItemBody items 0 (store, nextId, [], [])
    simpa using h

/-- Witness for C9: a one-item grade batch whose item lacks a student id
reports row 1 with the handler's reason. -/
theorem bulk_item_isolation_witness :
    (1, "Student and subject are required") ∈
      (bulkCreateGrades wActor [⟨none, some 3, wMarks, 1, "2024-25", none, none, none⟩] [] 0).2.2.2 :=
  (bulk_item_isolation.1 wActor [] []
    ⟨none, some 3, wMarks, 1, "2024-25", none, none, none⟩ [] 0
    "Student and subject are required" rfl).2.1

end Cgpa
